import Mathlib

/-!
Shallow embedding of the match/set completion and bracket-advancement engine
of the rowad-speedball-socket server, together with proofs of its
specification claims.

The definitions mirror the TypeScript source:
* src/utils/match-completion.ts   (majority resolver, standings updater,
  bracket router, BYE cascade, group/event completion flags)
* src/utils/validation.ts         (validateSetScore, validateSetPlayed,
  validateMatchCompletion)
* the socket controller orchestrators markSetPlayed and updateMatch.

The relational store is embedded as explicit lists of rows; each handler is
a pure function from a World to a World together with the list of emitted
socket events.  JavaScript truthiness on nullable string/number columns is
modelled explicitly.  Wall-clock timestamps (createdAt/updatedAt) are out
of scope of the embedding.
-/

namespace Speedball

/-- Typed rejection kinds used by the validators and controllers. -/
inductive Err where
  | setNotFound
  | matchNotFound
  | eventNotFound
  | setAlreadyPlayed
  | matchAlreadyPlayed
  | notAuthorized
  | drawNotAllowed
  | scoreTooLow
  | previousSetsIncomplete
  | scoresNegative
  | setImmutable
  | allSetsNotPlayed
  | tiedSeries
  | noMajority
deriving DecidableEq, Repr

/-- Socket events emitted by the controllers. -/
inductive Emit where
  | errorMsg (e : Err)
  | matchCompletedEv (matchId : String) (winnerId : String)
  | setPlayedEv (matchId : String) (setId : String)
      (matchCompleted : Bool) (winnerId : Option String)
  | matchUpdatedEv (matchId : String) (played : Bool)
      (matchDate : Option String) (winnerId : Option String)
deriving DecidableEq, Repr

/-- JavaScript truthiness of a nullable string column: null and the empty
string are falsy. -/
def optStrTruthy : Option String → Bool
  | none => false
  | some s => s ≠ ""

/-- JavaScript truthiness of a nullable number column: null and 0 are falsy. -/
def optNatTruthy : Option Nat → Bool
  | none => false
  | some n => n ≠ 0

/-- JavaScript disjunction a || b on nullable strings. -/
def jsOrStr (a b : Option String) : Option String :=
  if optStrTruthy a then a else b

/-- Score pair of one played set, as consumed by the majority resolver and
the standings updater (interface SetResult in match-completion.ts). -/
structure SetResult where
  registration1Score : Int
  registration2Score : Int
deriving DecidableEq, Repr

/-- Result record of checkMajorityAndGetWinner. -/
structure MajorityResult where
  winnerId : Option String
  completed : Bool
deriving DecidableEq, Repr

/-- Math.ceil(bestOf / 2) on natural numbers. -/
def majorityOf (bestOf : Nat) : Nat := (bestOf + 1) / 2

/-- Number of sets in which registration 1 scored strictly more than
registration 2 (the registration1Wins counter of the source loop). -/
def registration1WinCount (playedSets : List SetResult) : Nat :=
  playedSets.countP (fun s => decide (s.registration2Score < s.registration1Score))

/-- Number of sets in which registration 2 scored strictly more than
registration 1 (the registration2Wins counter of the source loop; the
source increments it in an else-if branch, which is equivalent because the
two strict comparisons are mutually exclusive). -/
def registration2WinCount (playedSets : List SetResult) : Nat :=
  playedSets.countP (fun s => decide (s.registration1Score < s.registration2Score))

/-- checkMajorityAndGetWinner from match-completion.ts. -/
def checkMajorityAndGetWinner (playedSets : List SetResult) (bestOf : Nat)
    (registration1Id registration2Id : Option String) : MajorityResult :=
  let majority := majorityOf bestOf
  let registration1Wins := registration1WinCount playedSets
  let registration2Wins := registration2WinCount playedSets
  if majority ≤ registration1Wins ∨ majority ≤ registration2Wins then
    { winnerId := if majority ≤ registration1Wins then registration1Id else registration2Id,
      completed := true }
  else
    { winnerId := none, completed := false }

/-- Row of the sets table (columns the core reads and writes). -/
structure SetRow where
  id : String
  matchId : String
  setNumber : Nat
  registration1Score : Int
  registration2Score : Int
  played : Bool
deriving DecidableEq, Repr

/-- Row of the matches table. -/
structure MatchRow where
  id : String
  eventId : String
  groupId : Option String
  registration1Id : Option String
  registration2Id : Option String
  matchDate : Option String
  played : Bool
  winnerId : Option String
  winnerTo : Option String
  winnerToSlot : Option Nat
  loserTo : Option String
  loserToSlot : Option Nat
deriving DecidableEq, Repr

/-- Row of the events table. -/
structure EventRow where
  id : String
  format : String
  bestOf : Nat
  pointsPerWin : Int
  pointsPerLoss : Int
  completed : Bool
deriving DecidableEq, Repr

/-- Row of the groups table. -/
structure GroupRow where
  id : String
  completed : Bool
deriving DecidableEq, Repr

/-- Row of the registrations table (the cumulative standings counters). -/
structure RegRow where
  id : String
  matchesWon : Int
  matchesLost : Int
  setsWon : Int
  setsLost : Int
  points : Int
deriving DecidableEq, Repr

/-- The shared relational store. -/
structure World where
  sets : List SetRow
  matchRows : List MatchRow
  events : List EventRow
  groups : List GroupRow
  registrations : List RegRow
deriving DecidableEq, Repr

/-- Projection of a set row to the score pair consumed by the resolver. -/
def toSetResult (s : SetRow) : SetResult :=
  { registration1Score := s.registration1Score,
    registration2Score := s.registration2Score }

/-- isGroupsFormat from match-completion.ts. -/
def isGroupsFormat (format : String) : Bool :=
  decide (format = "groups") || decide (format = "groups-knockout")

/-- isSingleEliminationFormat from match-completion.ts. -/
def isSingleEliminationFormat (format : String) : Bool :=
  decide (format = "single-elimination")

/-- isDoubleEliminationFormat from match-completion.ts. -/
def isDoubleEliminationFormat (format : String) : Bool :=
  decide (format = "double-elimination")

/-- Result record of calculateMatchPoints. -/
structure MatchPointsResult where
  registration1Points : Int
  registration2Points : Int
  registration1Won : Bool
  registration2Won : Bool
deriving DecidableEq, Repr

/-- calculateMatchPoints from match-completion.ts. -/
def calculateMatchPoints (winnerId registration1Id registration2Id : String)
    (pointsPerWin pointsPerLoss : Int) : MatchPointsResult :=
  let registration1Won := decide (winnerId = registration1Id)
  let registration2Won := decide (winnerId = registration2Id)
  { registration1Points := if registration1Won then pointsPerWin else pointsPerLoss,
    registration2Points := if registration2Won then pointsPerWin else pointsPerLoss,
    registration1Won := registration1Won,
    registration2Won := registration2Won }

/-- Result record of calculateSetPoints. -/
structure SetPointsResult where
  registration1SetsWon : Nat
  registration1SetsLost : Nat
  registration2SetsWon : Nat
  registration2SetsLost : Nat
deriving DecidableEq, Repr

/-- calculateSetPoints from match-completion.ts: the source loop increments
registration1SetsLost exactly when registration 2 wins the set and vice
versa, so the four counters are the two disjoint win counts. -/
def calculateSetPoints (setResults : List SetResult) : SetPointsResult :=
  { registration1SetsWon := registration1WinCount setResults,
    registration1SetsLost := registration2WinCount setResults,
    registration2SetsWon := registration2WinCount setResults,
    registration2SetsLost := registration1WinCount setResults }

/-- updateRegistrationStandings from match-completion.ts: reads each
registration row, and when found, writes back the row with the additive
deltas; a missing row is a no-op for that side. -/
def updateRegistrationStandings (regs : List RegRow)
    (registration1Id registration2Id : String)
    (matchResult : MatchPointsResult) (setResults : SetPointsResult) : List RegRow :=
  let regs1 : List RegRow :=
    match regs.find? (fun r => decide (r.id = registration1Id)) with
    | none => regs
    | some reg1 =>
      regs.map (fun r : RegRow =>
        if r.id = registration1Id then
          { reg1 with
            matchesWon := reg1.matchesWon + (if matchResult.registration1Won then 1 else 0),
            matchesLost := reg1.matchesLost + (if matchResult.registration1Won then 0 else 1),
            setsWon := reg1.setsWon + (setResults.registration1SetsWon : Int),
            setsLost := reg1.setsLost + (setResults.registration1SetsLost : Int),
            points := reg1.points + matchResult.registration1Points }
        else r)
  match regs1.find? (fun r => decide (r.id = registration2Id)) with
  | none => regs1
  | some reg2 =>
    regs1.map (fun r : RegRow =>
      if r.id = registration2Id then
        { reg2 with
          matchesWon := reg2.matchesWon + (if matchResult.registration2Won then 1 else 0),
          matchesLost := reg2.matchesLost + (if matchResult.registration2Won then 0 else 1),
          setsWon := reg2.setsWon + (setResults.registration2SetsWon : Int),
          setsLost := reg2.setsLost + (setResults.registration2SetsLost : Int),
          points := reg2.points + matchResult.registration2Points }
      else r)

/-- advanceWinnerToNextMatch from match-completion.ts: slot 1 writes
registration1Id of the target match, any other slot writes registration2Id. -/
def advanceWinnerToNextMatch (ms : List MatchRow) (nextMatchId : String) (slot : Nat)
    (winnerId : String) : List MatchRow :=
  ms.map (fun m =>
    if m.id = nextMatchId then
      if slot = 1 then { m with registration1Id := some winnerId }
      else { m with registration2Id := some winnerId }
    else m)

/-- updateGroupCompletionStatus from match-completion.ts. -/
def updateGroupCompletionStatus (w : World) (groupId : String) : World :=
  let groupMatches := w.matchRows.filter (fun m => decide (m.groupId = some groupId))
  let allMatchesPlayed := groupMatches.all (fun m => m.played)
  { w with groups := w.groups.map (fun g =>
      if g.id = groupId then { g with completed := allMatchesPlayed } else g) }

/-- updateEventCompletedStatus from match-completion.ts: an event with zero
matches is written completed = false, otherwise completed is the absence
of unplayed matches. -/
def updateEventCompletedStatus (w : World) (eventId : String) : World :=
  let allMatches := w.matchRows.filter (fun m => decide (m.eventId = eventId))
  let completed :=
    if allMatches.length = 0 then false
    else ! allMatches.any (fun m => ! m.played)
  { w with events := w.events.map (fun e =>
      if e.id = eventId then { e with completed := completed } else e) }

/-- handleGroupsMatchCompletion from match-completion.ts: returns the
registrations unchanged when either registration slot is falsy. -/
def handleGroupsMatchCompletion (regs : List RegRow) (m : MatchRow) (event : EventRow)
    (winnerId : String) (playedSets : List SetResult) : List RegRow :=
  if ! optStrTruthy m.registration1Id || ! optStrTruthy m.registration2Id then regs
  else
    let registration1Id := m.registration1Id.getD ""
    let registration2Id := m.registration2Id.getD ""
    let matchPoints := calculateMatchPoints winnerId registration1Id registration2Id
      event.pointsPerWin event.pointsPerLoss
    let setResults := calculateSetPoints playedSets
    updateRegistrationStandings regs registration1Id registration2Id matchPoints setResults

/-- handleSingleEliminationMatchCompletion from match-completion.ts: only
advances the winner; it performs no BYE cascade. -/
def handleSingleEliminationMatchCompletion (ms : List MatchRow) (m : MatchRow)
    (winnerId : String) : List MatchRow :=
  if optStrTruthy m.winnerTo && optNatTruthy m.winnerToSlot && decide (winnerId ≠ "") then
    advanceWinnerToNextMatch ms (m.winnerTo.getD "") (m.winnerToSlot.getD 0) winnerId
  else ms

/-- The pending-feeder scan of checkAndAutoAdvanceBye: some unplayed match
of the event still routes its winner or loser into the given match. -/
def hasPendingFeederFn (ms : List MatchRow) (matchId eventId : String) : Bool :=
  (ms.filter (fun x => decide (x.eventId = eventId))).any (fun f =>
    ! f.played && (decide (f.winnerTo = some matchId) || decide (f.loserTo = some matchId)))

/-- checkAndAutoAdvanceBye from match-completion.ts.  The TypeScript
function recurses along winnerTo edges; the embedding adds a fuel
parameter to make the recursion structural, and returns alongside the new
match table the trace of match ids the cascade inspected, one per
recursive invocation that found its match. -/
def checkAndAutoAdvanceBye (fuel : Nat) (ms : List MatchRow)
    (matchId eventId : String) : List MatchRow × List String :=
  match fuel with
  | 0 => (ms, [])
  | fuel' + 1 =>
    match ms.find? (fun m => decide (m.id = matchId)) with
    | none => (ms, [])
    | some m =>
      if m.played then (ms, [matchId])
      else if m.registration1Id.isSome = m.registration2Id.isSome then (ms, [matchId])
      else
        let soloRegistrationId := jsOrStr m.registration1Id m.registration2Id
        if hasPendingFeederFn ms matchId eventId then (ms, [matchId])
        else
          let ms1 := ms.map (fun x =>
            if x.id = matchId then { x with winnerId := soloRegistrationId, played := true } else x)
          if optStrTruthy m.winnerTo && optNatTruthy m.winnerToSlot
              && optStrTruthy soloRegistrationId then
            let ms2 := advanceWinnerToNextMatch ms1 (m.winnerTo.getD "")
              (m.winnerToSlot.getD 0) (soloRegistrationId.getD "")
            let r := checkAndAutoAdvanceBye fuel' ms2 (m.winnerTo.getD "") eventId
            (r.1, matchId :: r.2)
          else (ms1, [matchId])

/-- Bounded-rank encoding of the forward-only DAG hypothesis: the rank of
the winnerTo target of every match is strictly below the rank of the
match itself. -/
def rankOkB (rank : String → Nat) (ms : List MatchRow) : Bool :=
  ms.all (fun x =>
    match x.winnerTo with
    | some t => decide (rank t < rank x.id)
    | none => true)

/-- The previous-sets loop of validateSetPlayed: for every index below
setNumber - 1 the set numbered index + 1 must exist and be played. -/
def previousSetsPlayed (allSets : List SetRow) (setNumber : Nat) : Bool :=
  (List.range (setNumber - 1)).all (fun i =>
    match allSets.find? (fun s => decide (s.setNumber = i + 1)) with
    | some previousSet => previousSet.played
    | none => false)

/-- validateSetPlayed from validation.ts. -/
def validateSetPlayed (w : World) (setId : String)
    (registration1Score registration2Score : Int) : Option Err :=
  if registration1Score = registration2Score then some .drawNotAllowed
  else if registration1Score ≤ 0 ∧ registration2Score ≤ 0 then some .scoreTooLow
  else
    match w.sets.find? (fun s => decide (s.id = setId)) with
    | none => some .setNotFound
    | some setData =>
      let allSets := w.sets.filter (fun s => decide (s.matchId = setData.matchId))
      if previousSetsPlayed allSets setData.setNumber then none
      else some .previousSetsIncomplete

/-- validateSetScore from validation.ts: the non-negativity check runs
before the set lookup, the immutability check and the parent-match check. -/
def validateSetScore (w : World) (setId : String)
    (registration1Score registration2Score : Int) : Option Err :=
  if registration1Score < 0 ∨ registration2Score < 0 then some .scoresNegative
  else
    match w.sets.find? (fun s => decide (s.id = setId)) with
    | none => some .setNotFound
    | some setData =>
      if setData.played then some .setImmutable
      else
        match w.matchRows.find? (fun x => decide (x.id = setData.matchId)) with
        | none => some .matchNotFound
        | some m =>
          if m.played then some .matchAlreadyPlayed
          else none

/-- validateMatchCompletion from validation.ts. -/
def validateMatchCompletion (w : World) (matchId : String) : Except Err (Option String) :=
  match w.matchRows.find? (fun x => decide (x.id = matchId)) with
  | none => .error .matchNotFound
  | some m =>
    match w.events.find? (fun e => decide (e.id = m.eventId)) with
    | none => .error .eventNotFound
    | some event =>
      let allSets := w.sets.filter (fun s => decide (s.matchId = matchId))
      let unplayedSets := allSets.filter (fun s => ! s.played)
      if unplayedSets.length > 0 then .error .allSetsNotPlayed
      else
        let playedSets := (allSets.filter (fun s => s.played)).map toSetResult
        let registration1Wins := registration1WinCount playedSets
        let registration2Wins := registration2WinCount playedSets
        if registration1Wins = registration2Wins then .error .tiedSeries
        else
          let majority := majorityOf event.bestOf
          if registration1Wins < majority ∧ registration2Wins < majority then .error .noMajority
          else .ok (if majority ≤ registration1Wins then m.registration1Id else m.registration2Id)

/-- The sets-table write of markSetPlayed: flip played to true on the row
with the given id. -/
def markSetRowPlayed (l : List SetRow) (setId : String) : List SetRow :=
  l.map (fun s => if s.id = setId then { s with played := true } else s)

/-- markSetPlayed from the socket controller.  Authorization is abstracted
into a boolean input; emitted socket events are returned in order.  The
completion branch dispatches by format exactly as the source does: groups
formats run the standings updater, single elimination advances the winner,
and no other format performs any bracket routing. -/
def markSetPlayed (authorized : Bool) (w : World) (setId : String) : World × List Emit :=
  match w.sets.find? (fun s => decide (s.id = setId)) with
  | none => (w, [.errorMsg .setNotFound])
  | some setData =>
    if setData.played then (w, [.errorMsg .setAlreadyPlayed])
    else
      match w.matchRows.find? (fun x => decide (x.id = setData.matchId)) with
      | none => (w, [.errorMsg .matchNotFound])
      | some m =>
        match w.events.find? (fun e => decide (e.id = m.eventId)) with
        | none => (w, [.errorMsg .eventNotFound])
        | some event =>
          if ! authorized then (w, [.errorMsg .notAuthorized])
          else
            match validateSetPlayed w setId setData.registration1Score setData.registration2Score with
            | some e => (w, [.errorMsg e])
            | none =>
              let w1 : World := { w with sets := markSetRowPlayed w.sets setId }
              let allSets := w1.sets.filter (fun s => decide (s.matchId = setData.matchId))
              let playedSets := allSets.filter (fun s => s.played)
              let majorityResult := checkMajorityAndGetWinner (playedSets.map toSetResult)
                event.bestOf m.registration1Id m.registration2Id
              if majorityResult.completed && optStrTruthy majorityResult.winnerId then
                let winnerId := majorityResult.winnerId.getD ""
                let w2 : World := { w1 with matchRows := w1.matchRows.map (fun x =>
                  if x.id = setData.matchId then
                    { x with played := true, winnerId := some winnerId } else x) }
                let w3 : World :=
                  if isGroupsFormat event.format then
                    { w2 with registrations := (handleGroupsMatchCompletion w2.registrations m event
                        winnerId (playedSets.map toSetResult)) }
                  else if isSingleEliminationFormat event.format then
                    { w2 with matchRows := handleSingleEliminationMatchCompletion w2.matchRows m winnerId }
                  else w2
                let w4 : World :=
                  if optStrTruthy m.groupId then
                    updateGroupCompletionStatus w3 (m.groupId.getD "")
                  else w3
                let w5 : World := updateEventCompletedStatus w4 m.eventId
                (w5, [.matchCompletedEv setData.matchId winnerId,
                      .setPlayedEv setData.matchId setId true (some winnerId)])
              else
                (w1, [.setPlayedEv setData.matchId setId false none])

/-- The played/winnerId column write of updateMatch, when present. -/
def pwApply (playedWrite : Option (Bool × Option String)) (x : MatchRow) : MatchRow :=
  match playedWrite with
  | none => x
  | some pw => { x with played := pw.1, winnerId := pw.2 }

/-- The matchDate column write of updateMatch, when present. -/
def mdApply (matchDateWrite : Option (Option String)) (x : MatchRow) : MatchRow :=
  match matchDateWrite with
  | none => x
  | some md => { x with matchDate := md }

/-- The matches-table write plus the trailing refetch and match-updated
emit shared by every non-error exit of updateMatch. -/
def applyMatchUpdate (w : World) (matchId : String)
    (playedWrite : Option (Bool × Option String)) (matchDateWrite : Option (Option String))
    (emits0 : List Emit) : World × List Emit :=
  let newMatches := w.matchRows.map (fun x =>
    if x.id = matchId then mdApply matchDateWrite (pwApply playedWrite x) else x)
  let w' : World := { w with matchRows := newMatches }
  match w'.matchRows.find? (fun x => decide (x.id = matchId)) with
  | none => (w', emits0)
  | some updatedMatch =>
    (w', emits0 ++ [.matchUpdatedEv matchId updatedMatch.played
        updatedMatch.matchDate updatedMatch.winnerId])

/-- updateMatch from the match controller.  The played input distinguishes
absent (none) from true/false; the matchDate input distinguishes absent
(none) from a supplied nullable value, which the source coerces with
matchDate || null before writing. -/
def updateMatch (authorized : Bool) (w : World) (matchId : String)
    (played : Option Bool) (matchDate : Option (Option String)) : World × List Emit :=
  match w.matchRows.find? (fun x => decide (x.id = matchId)) with
  | none => (w, [.errorMsg .matchNotFound])
  | some m =>
    match w.events.find? (fun e => decide (e.id = m.eventId)) with
    | none => (w, [.errorMsg .eventNotFound])
    | some _event =>
      if ! authorized then (w, [.errorMsg .notAuthorized])
      else
        let matchDateWrite : Option (Option String) :=
          match matchDate with
          | none => none
          | some v => some (if optStrTruthy v then v else none)
        match played with
        | some true =>
          if ! m.played then
            match validateMatchCompletion w matchId with
            | .error e => (w, [.errorMsg e])
            | .ok validationWinnerId =>
              applyMatchUpdate w matchId (some (true, validationWinnerId)) matchDateWrite
                (if optStrTruthy validationWinnerId then
                  [.matchCompletedEv matchId (validationWinnerId.getD "")] else [])
          else applyMatchUpdate w matchId none matchDateWrite []
        | some false =>
          if m.played then applyMatchUpdate w matchId (some (false, none)) matchDateWrite []
          else applyMatchUpdate w matchId none matchDateWrite []
        | none => applyMatchUpdate w matchId none matchDateWrite []

/-- The played sets of a match form an initial segment of the set numbers:
below any played set number every positive number is the number of some
played set. -/
def initialSegmentPlayed (l : List SetRow) : Prop :=
  ∀ s ∈ l, s.played = true → ∀ m, 0 < m → m < s.setNumber →
    ∃ t ∈ l, t.setNumber = m ∧ t.played = true

/-- The state produced by the completion branch of markSetPlayed: the set
marked played, the match written played with the winner, the
format-dispatched handler applied, then the group and event completion
flags recomputed. -/
def completionWorld (w : World) (setId : String) (sd : SetRow) (m : MatchRow)
    (event : EventRow) (wid : String) : World :=
  let w1 : World := { w with sets := markSetRowPlayed w.sets setId }
  let playedSets := (w1.sets.filter (fun s => decide (s.matchId = sd.matchId))).filter
      (fun s => s.played)
  let w2 : World := { w1 with matchRows := w1.matchRows.map (fun x =>
      if x.id = sd.matchId then { x with played := true, winnerId := some wid } else x) }
  let w3 : World :=
    if isGroupsFormat event.format then
      { w2 with registrations := (handleGroupsMatchCompletion w2.registrations m event wid
          (playedSets.map toSetResult)) }
    else if isSingleEliminationFormat event.format then
      { w2 with matchRows := handleSingleEliminationMatchCompletion w2.matchRows m wid }
    else w2
  let w4 : World :=
    if optStrTruthy m.groupId then updateGroupCompletionStatus w3 (m.groupId.getD "") else w3
  updateEventCompletedStatus w4 m.eventId

/-! Concrete rows and worlds used by witnesses and counterexamples. -/

/-- A double-elimination opening match feeding winner to m2 and loser to m3. -/
def matchDE1 : MatchRow :=
  { id := "m1", eventId := "e1", groupId := none,
    registration1Id := some "A", registration2Id := some "B",
    matchDate := some "2026-01-01", played := false, winnerId := none,
    winnerTo := some "m2", winnerToSlot := some 1,
    loserTo := some "m3", loserToSlot := some 1 }

/-- An empty downstream match. -/
def matchDE2 : MatchRow :=
  { id := "m2", eventId := "e1", groupId := none,
    registration1Id := none, registration2Id := none,
    matchDate := none, played := false, winnerId := none,
    winnerTo := none, winnerToSlot := none, loserTo := none, loserToSlot := none }

/-- An empty losers-bracket match. -/
def matchDE3 : MatchRow := { matchDE2 with id := "m3" }

/-- A double-elimination best-of-1 event. -/
def eventDE : EventRow :=
  { id := "e1", format := "double-elimination", bestOf := 1,
    pointsPerWin := 3, pointsPerLoss := 0, completed := false }

/-- The only set of matchDE1, about to be marked played at 11-5. -/
def setDE : SetRow :=
  { id := "s1", matchId := "m1", setNumber := 1,
    registration1Score := 11, registration2Score := 5, played := false }

/-- The double-elimination world of the markSetPlayed counterexample. -/
def worldDE : World :=
  { sets := [setDE], matchRows := [matchDE1, matchDE2, matchDE3],
    events := [eventDE], groups := [], registrations := [] }

/-- An already-played drawn set. -/
def setC4 : SetRow :=
  { id := "s1", matchId := "m1", setNumber := 1,
    registration1Score := 5, registration2Score := 5, played := true }

/-- World with one already-played set on an unplayed match. -/
def worldC4 : World :=
  { sets := [setC4], matchRows := [matchDE1], events := [eventDE],
    groups := [], registrations := [] }

/-- First set of the sequential-validation witness match, already played. -/
def setC3a : SetRow :=
  { id := "sA", matchId := "M", setNumber := 1,
    registration1Score := 11, registration2Score := 5, played := true }

/-- Second set of the sequential-validation witness match, in progress. -/
def setC3b : SetRow :=
  { id := "sB", matchId := "M", setNumber := 2,
    registration1Score := 7, registration2Score := 11, played := false }

/-- World for the validateSetPlayed witness. -/
def worldC3 : World :=
  { sets := [setC3a, setC3b], matchRows := [], events := [],
    groups := [], registrations := [] }

/-- A BYE match about to auto-advance its solo registration to b2. -/
def matchBye1 : MatchRow :=
  { id := "b1", eventId := "e1", groupId := none,
    registration1Id := some "A", registration2Id := none,
    matchDate := none, played := false, winnerId := none,
    winnerTo := some "b2", winnerToSlot := some 1,
    loserTo := none, loserToSlot := none }

/-- The downstream match of the BYE chain. -/
def matchBye2 : MatchRow :=
  { id := "b2", eventId := "e1", groupId := none,
    registration1Id := none, registration2Id := none,
    matchDate := none, played := false, winnerId := none,
    winnerTo := none, winnerToSlot := none, loserTo := none, loserToSlot := none }

/-- The BYE chain for the cascade witness. -/
def msBye : List MatchRow := [matchBye1, matchBye2]

/-- A rank function strictly decreasing along the winnerTo edges of msBye. -/
def rankBye : String → Nat := fun s => if s = "b1" then 1 else 0

/-- A registration with existing standings. -/
def regA : RegRow :=
  { id := "A", matchesWon := 2, matchesLost := 1,
    setsWon := 5, setsLost := 3, points := 6 }

/-- A second registration with existing standings. -/
def regB : RegRow :=
  { id := "B", matchesWon := 0, matchesLost := 3,
    setsWon := 2, setsLost := 6, points := 0 }

/-- Registration table for the standings witness. -/
def regsC6 : List RegRow := [regA, regB]

/-- A groups-format match between registrations A and B. -/
def matchGR : MatchRow :=
  { id := "g1", eventId := "e1", groupId := some "grp",
    registration1Id := some "A", registration2Id := some "B",
    matchDate := some "2026-01-01", played := false, winnerId := none,
    winnerTo := none, winnerToSlot := none, loserTo := none, loserToSlot := none }

/-- A groups-format best-of-3 event awarding 3 points per win. -/
def eventGR : EventRow :=
  { id := "e1", format := "groups", bestOf := 3,
    pointsPerWin := 3, pointsPerLoss := 0, completed := false }

/-- A played match used by the updateMatch witnesses. -/
def matchPL : MatchRow := { matchDE1 with played := true, winnerId := some "A" }

/-- World with a played match for the updateMatch witnesses. -/
def worldPL : World :=
  { sets := [setC4], matchRows := [matchPL], events := [eventDE],
    groups := [], registrations := [regA] }

/-- A single-elimination best-of-1 event. -/
def eventSE : EventRow := { eventDE with format := "single-elimination" }

/-- The single-elimination world of the dispatch witness: matchDE1 feeds
its winner to matchDE2, and set s1 is about to complete it. -/
def worldSE : World :=
  { sets := [setDE], matchRows := [matchDE1, matchDE2, matchDE3],
    events := [eventSE], groups := [], registrations := [] }

end Speedball

namespace Speedball

theorem winCount_add_le (l : List SetResult) :
    registration1WinCount l + registration2WinCount l ≤ l.length := by
  induction l with
  | nil => simp [registration1WinCount, registration2WinCount]
  | cons s t ih =>
    simp only [registration1WinCount, registration2WinCount, List.countP_cons,
      List.length_cons] at ih ⊢
    by_cases h1 : s.registration2Score < s.registration1Score
    · have h2 : ¬ s.registration1Score < s.registration2Score := by omega
      simp [h1, h2]
      omega
    · by_cases h2 : s.registration1Score < s.registration2Score
      · simp [h1, h2]
        omega
      · simp [h1, h2]
        omega

/-- Claim C1: for every list of played sets of a match (at most bestOf
entries) and every positive odd bestOf, checkMajorityAndGetWinner reports
completed exactly when one of the two win counts reaches ceil(bestOf/2)
(equal-score sets counting toward neither side); the two sides never both
reach the majority; when a side reaches the majority the corresponding
registration id is returned as winnerId; and when not completed the
winnerId is null. -/
theorem checkMajorityAndGetWinner_spec (playedSets : List SetResult) (bestOf : Nat)
    (registration1Id registration2Id : Option String)
    (hodd : bestOf % 2 = 1) (hlen : playedSets.length ≤ bestOf) :
    ((checkMajorityAndGetWinner playedSets bestOf registration1Id registration2Id).completed = true
      ↔ (majorityOf bestOf ≤ registration1WinCount playedSets
          ∨ majorityOf bestOf ≤ registration2WinCount playedSets))
    ∧ ¬ (majorityOf bestOf ≤ registration1WinCount playedSets
          ∧ majorityOf bestOf ≤ registration2WinCount playedSets)
    ∧ (majorityOf bestOf ≤ registration1WinCount playedSets →
        (checkMajorityAndGetWinner playedSets bestOf registration1Id registration2Id).winnerId
          = registration1Id)
    ∧ (majorityOf bestOf ≤ registration2WinCount playedSets →
        (checkMajorityAndGetWinner playedSets bestOf registration1Id registration2Id).winnerId
          = registration2Id)
    ∧ ((checkMajorityAndGetWinner playedSets bestOf registration1Id registration2Id).completed = false →
        (checkMajorityAndGetWinner playedSets bestOf registration1Id registration2Id).winnerId = none) := by
  have hsum := winCount_add_le playedSets
  have hexcl : ¬ (majorityOf bestOf ≤ registration1WinCount playedSets
      ∧ majorityOf bestOf ≤ registration2WinCount playedSets) := by
    rintro ⟨h1, h2⟩
    have : 2 * majorityOf bestOf = bestOf + 1 := by
      unfold majorityOf
      omega
    omega
  refine ⟨?_, hexcl, ?_, ?_, ?_⟩
  · unfold checkMajorityAndGetWinner
    by_cases h : majorityOf bestOf ≤ registration1WinCount playedSets
        ∨ majorityOf bestOf ≤ registration2WinCount playedSets
    · simp [h]
    · simp [h]
  · intro h1
    unfold checkMajorityAndGetWinner
    simp [h1, Or.inl h1]
  · intro h2
    have h1 : ¬ majorityOf bestOf ≤ registration1WinCount playedSets := by
      intro h1
      exact hexcl ⟨h1, h2⟩
    unfold checkMajorityAndGetWinner
    simp [h1, h2, Or.inr h2]
  · intro hc
    unfold checkMajorityAndGetWinner at hc ⊢
    by_cases h : majorityOf bestOf ≤ registration1WinCount playedSets
        ∨ majorityOf bestOf ≤ registration2WinCount playedSets
    · simp [h] at hc
    · simp [h]

/-- Witness for claim C1: a best-of-3 match where registration 1 has won
two sets is completed with registration 1 as winner. -/
theorem checkMajorityAndGetWinner_spec_witness :
    (checkMajorityAndGetWinner [⟨11, 5⟩, ⟨11, 7⟩] 3 (some "A") (some "B")).completed = true
    ∧ (checkMajorityAndGetWinner [⟨11, 5⟩, ⟨11, 7⟩] 3 (some "A") (some "B")).winnerId = some "A" := by
  have h := checkMajorityAndGetWinner_spec [⟨11, 5⟩, ⟨11, 7⟩] 3 (some "A") (some "B")
    (by decide) (by decide)
  refine ⟨h.1.mpr (Or.inl (by decide)), h.2.2.1 (by decide)⟩


/-! Helper lemmas about table lookups under row updates. -/

theorem find?_map_setRow (l : List SetRow) (f : SetRow → SetRow)
    (hf : ∀ a, (f a).id = a.id) (k : String) :
    (l.map f).find? (fun a => decide (a.id = k))
      = (l.find? (fun a => decide (a.id = k))).map f := by
  rw [List.find?_map]
  have h : ((fun a : SetRow => decide (a.id = k)) ∘ f)
      = (fun a : SetRow => decide (a.id = k)) := by
    funext a
    simp [Function.comp, hf]
  rw [h]

theorem find?_map_matchRow (l : List MatchRow) (f : MatchRow → MatchRow)
    (hf : ∀ a, (f a).id = a.id) (k : String) :
    (l.map f).find? (fun a => decide (a.id = k))
      = (l.find? (fun a => decide (a.id = k))).map f := by
  rw [List.find?_map]
  have h : ((fun a : MatchRow => decide (a.id = k)) ∘ f)
      = (fun a : MatchRow => decide (a.id = k)) := by
    funext a
    simp [Function.comp, hf]
  rw [h]

theorem find?_map_regRow (l : List RegRow) (f : RegRow → RegRow)
    (hf : ∀ a, (f a).id = a.id) (k : String) :
    (l.map f).find? (fun a => decide (a.id = k))
      = (l.find? (fun a => decide (a.id = k))).map f := by
  rw [List.find?_map]
  have h : ((fun a : RegRow => decide (a.id = k)) ∘ f)
      = (fun a : RegRow => decide (a.id = k)) := by
    funext a
    simp [Function.comp, hf]
  rw [h]

theorem filter_map_setRow (l : List SetRow) (f : SetRow → SetRow)
    (hf : ∀ a, (f a).matchId = a.matchId) (k : String) :
    (l.map f).filter (fun a => decide (a.matchId = k))
      = (l.filter (fun a => decide (a.matchId = k))).map f := by
  rw [List.filter_map]
  have h : ((fun a : SetRow => decide (a.matchId = k)) ∘ f)
      = (fun a : SetRow => decide (a.matchId = k)) := by
    funext a
    simp [Function.comp, hf]
  rw [h]

/-! Claim C4: validateSetScore ordering. -/

/-- Claim C4 counterexample: in worldC4 the set s1 is already played, yet a
proposed edit with a negative score is rejected with the invalid-score
rejection, not the set-immutable rejection, because the source checks
non-negativity before loading the set. -/
theorem validateSetScore_order_cex :
    (worldC4.sets.find? (fun s => decide (s.id = "s1"))).map (fun s => s.played) = some true
    ∧ validateSetScore worldC4 "s1" (-1) 0 = some Err.scoresNegative
    ∧ validateSetScore worldC4 "s1" (-1) 0 ≠ some Err.setImmutable := by
  refine ⟨by decide, by decide, by decide⟩

/-- Claim C4 (amended): validateSetScore fails with the invalid-score
rejection exactly when a proposed score is negative, and this check runs
first; with non-negative scores it fails with the set-immutable rejection
exactly when the set is already played, then with the match-already-played
rejection exactly when the parent match is played, and succeeds otherwise,
so equal non-negative scores are accepted while the set is in progress. -/
theorem validateSetScore_spec (w : World) (setId : String) (r1 r2 : Int) :
    (validateSetScore w setId r1 r2 = some Err.scoresNegative ↔ (r1 < 0 ∨ r2 < 0))
    ∧ (∀ sd, w.sets.find? (fun s => decide (s.id = setId)) = some sd →
        ¬(r1 < 0 ∨ r2 < 0) →
        ((validateSetScore w setId r1 r2 = some Err.setImmutable ↔ sd.played = true)
          ∧ (sd.played = false →
              ∀ m, w.matchRows.find? (fun x => decide (x.id = sd.matchId)) = some m →
                ((validateSetScore w setId r1 r2 = some Err.matchAlreadyPlayed ↔ m.played = true)
                  ∧ (m.played = false → validateSetScore w setId r1 r2 = none))))) := by
  constructor
  · by_cases hneg : r1 < 0 ∨ r2 < 0
    · simp [validateSetScore, hneg]
    · have hne : validateSetScore w setId r1 r2 ≠ some Err.scoresNegative := by
        unfold validateSetScore
        rw [if_neg hneg]
        cases hfind : w.sets.find? (fun s => decide (s.id = setId)) with
        | none => simp
        | some sd =>
          cases hp : sd.played with
          | true => simp [hp]
          | false =>
            simp only [hp, Bool.false_eq_true, if_false]
            cases hm : w.matchRows.find? (fun x => decide (x.id = sd.matchId)) with
            | none => simp
            | some mr =>
              cases hmp : mr.played with
              | true => simp [hmp]
              | false => simp [hmp]
      simp [hne, hneg]
  · intro sd hf hneg
    have hbase : validateSetScore w setId r1 r2
        = (if sd.played then some Err.setImmutable
           else
             match w.matchRows.find? (fun x => decide (x.id = sd.matchId)) with
             | none => some Err.matchNotFound
             | some m => if m.played then some Err.matchAlreadyPlayed else none) := by
      unfold validateSetScore
      rw [if_neg hneg, hf]
    constructor
    · cases hp : sd.played with
      | true => simp [hbase, hp]
      | false =>
        rw [hbase]
        simp only [hp, Bool.false_eq_true, if_false]
        cases hm : w.matchRows.find? (fun x => decide (x.id = sd.matchId)) with
        | none => simp
        | some mr =>
          cases hmp : mr.played with
          | true => simp
          | false => simp
    · intro hp mr hm
      rw [hbase]
      simp only [hp, Bool.false_eq_true, if_false, hm]
      constructor
      · cases hmp : mr.played with
        | true => simp [hmp]
        | false => simp [hmp]
      · intro hmp
        simp [hmp]

/-- Witness for the amended claim C4: a drawn in-progress score 2-2 on an
unplayed set of an unplayed match is accepted. -/
theorem validateSetScore_spec_witness :
    validateSetScore worldDE "s1" 2 2 = none := by
  have h := (validateSetScore_spec worldDE "s1" 2 2).2 setDE (by rfl) (by decide)
  exact (h.2 (by rfl) matchDE1 (by rfl)).2 (by rfl)

/-! Claim C7: event completion flag recomputation. -/

/-- Claim C7: after updateEventCompletedStatus runs, the event's completed
flag is true exactly when the event has at least one match and every one
of its matches is played; in particular an event with zero matches gets
completed = false. -/
theorem updateEventCompletedStatus_spec (w : World) (eventId : String) :
    ∀ e ∈ (updateEventCompletedStatus w eventId).events, e.id = eventId →
      (e.completed = true ↔
        (w.matchRows.filter (fun m => decide (m.eventId = eventId)) ≠ []
          ∧ ∀ m ∈ w.matchRows.filter (fun m => decide (m.eventId = eventId)),
              m.played = true)) := by
  intro e he hid
  unfold updateEventCompletedStatus at he
  simp only [List.mem_map] at he
  obtain ⟨e0, he0, rfl⟩ := he
  by_cases h0 : e0.id = eventId
  · rw [if_pos h0]
    by_cases hms : w.matchRows.filter (fun m => decide (m.eventId = eventId)) = []
    · simp [hms]
    · have hlen : (w.matchRows.filter (fun m => decide (m.eventId = eventId))).length ≠ 0 := by
        simpa [List.length_eq_zero] using hms
      simp only [if_neg hlen]
      constructor
      · intro hall
        refine ⟨hms, ?_⟩
        intro m hm
        by_contra hmp
        have : (w.matchRows.filter (fun x => decide (x.eventId = eventId))).any
            (fun m => ! m.played) = true := by
          rw [List.any_eq_true]
          exact ⟨m, hm, by simp [Bool.not_eq_true] at hmp ⊢; exact hmp⟩
        rw [this] at hall
        simp at hall
      · rintro ⟨-, hall⟩
        have : (w.matchRows.filter (fun x => decide (x.eventId = eventId))).any
            (fun m => ! m.played) = false := by
          rw [Bool.eq_false_iff]
          intro hany
          rw [List.any_eq_true] at hany
          obtain ⟨m, hm, hmp⟩ := hany
          rw [hall m hm] at hmp
          simp at hmp
        simp [this]
  · rw [if_neg h0] at hid ⊢
    exact absurd hid h0

/-- Witness for claim C7: in worldDE only one of three matches of event e1
is unplayed, so the recomputed flag of e1 is false, matching the
right-hand side being false. -/
theorem updateEventCompletedStatus_spec_witness :
    (({ eventDE with completed := false } : EventRow).completed = true ↔
      (worldDE.matchRows.filter (fun m => decide (m.eventId = "e1")) ≠ []
        ∧ ∀ m ∈ worldDE.matchRows.filter (fun m => decide (m.eventId = "e1")),
            m.played = true)) := by
  have h := updateEventCompletedStatus_spec worldDE "e1"
  exact h { eventDE with completed := false } (by decide) (by decide)


/-! Claim C3: validateSetPlayed and the sequential prefix invariant. -/

theorem previousSetsPlayed_iff (allSets : List SetRow) (n : Nat)
    (hnodup : (allSets.map (fun s => s.setNumber)).Nodup) :
    previousSetsPlayed allSets n = true ↔
      ∀ m, 0 < m → m < n → ∃ t ∈ allSets, t.setNumber = m ∧ t.played = true := by
  unfold previousSetsPlayed
  rw [List.all_eq_true]
  constructor
  · intro h m hm0 hmn
    have hi : m - 1 ∈ List.range (n - 1) := by
      rw [List.mem_range]
      omega
    have hres := h (m - 1) hi
    cases hfind : allSets.find? (fun s => decide (s.setNumber = m - 1 + 1)) with
    | none =>
      rw [hfind] at hres
      simp at hres
    | some p =>
      rw [hfind] at hres
      refine ⟨p, List.mem_of_find?_eq_some hfind, ?_, hres⟩
      have hpn := List.find?_some hfind
      simp only [decide_eq_true_eq] at hpn
      omega
  · intro h i hi
    rw [List.mem_range] at hi
    obtain ⟨t, ht, htn, htp⟩ := h (i + 1) (by omega) (by omega)
    cases hfind : allSets.find? (fun s => decide (s.setNumber = i + 1)) with
    | none =>
      rw [List.find?_eq_none] at hfind
      have := hfind t ht
      simp [htn] at this
    | some p =>
      have hpmem := List.mem_of_find?_eq_some hfind
      have hpn : p.setNumber = i + 1 := by
        have := List.find?_some hfind
        simpa using this
      have hpt : p = t := by
        apply List.inj_on_of_nodup_map hnodup hpmem ht
        rw [hpn, htn]
      simp only []
      rw [hpt]
      exact htp

/-- Claim C3: validateSetPlayed fails with the draw rejection exactly when
the two proposed scores are equal; with the score-too-low rejection exactly
when they differ but both are at most 0; with the previous-sets rejection
exactly when some lower set number of the same match is missing or
unplayed; succeeds otherwise; and a successful validation, applied by
marking the set played, preserves the invariant that the played sets of
the match form an initial segment of the set numbers. -/
theorem validateSetPlayed_spec (w : World) (setId : String) (r1 r2 : Int) (sd : SetRow)
    (hf : w.sets.find? (fun s => decide (s.id = setId)) = some sd)
    (hids : (w.sets.map (fun s => s.id)).Nodup)
    (hsn : ((w.sets.filter (fun s => decide (s.matchId = sd.matchId))).map
        (fun s => s.setNumber)).Nodup) :
    (validateSetPlayed w setId r1 r2 = some Err.drawNotAllowed ↔ r1 = r2)
    ∧ (validateSetPlayed w setId r1 r2 = some Err.scoreTooLow
        ↔ (r1 ≠ r2 ∧ r1 ≤ 0 ∧ r2 ≤ 0))
    ∧ (validateSetPlayed w setId r1 r2 = some Err.previousSetsIncomplete ↔
        (r1 ≠ r2 ∧ ¬(r1 ≤ 0 ∧ r2 ≤ 0)
          ∧ ∃ m, 0 < m ∧ m < sd.setNumber
              ∧ ∀ t ∈ w.sets.filter (fun s => decide (s.matchId = sd.matchId)),
                  t.setNumber = m → t.played = false))
    ∧ (validateSetPlayed w setId r1 r2 = none ↔
        (r1 ≠ r2 ∧ ¬(r1 ≤ 0 ∧ r2 ≤ 0)
          ∧ ∀ m, 0 < m → m < sd.setNumber →
              ∃ t ∈ w.sets.filter (fun s => decide (s.matchId = sd.matchId)),
                t.setNumber = m ∧ t.played = true))
    ∧ (validateSetPlayed w setId r1 r2 = none →
        initialSegmentPlayed (w.sets.filter (fun s => decide (s.matchId = sd.matchId))) →
        initialSegmentPlayed ((markSetRowPlayed w.sets setId).filter
          (fun s => decide (s.matchId = sd.matchId)))) := by
  have hiff := previousSetsPlayed_iff
    (w.sets.filter (fun s => decide (s.matchId = sd.matchId))) sd.setNumber hsn
  have hbase : ∀ hd : r1 ≠ r2, ∀ hl : ¬(r1 ≤ 0 ∧ r2 ≤ 0),
      validateSetPlayed w setId r1 r2
        = (if previousSetsPlayed
              (w.sets.filter (fun s => decide (s.matchId = sd.matchId))) sd.setNumber
           then none else some Err.previousSetsIncomplete) := by
    intro hd hl
    unfold validateSetPlayed
    rw [if_neg hd, if_neg hl, hf]
  refine ⟨?_, ?_, ?_, ?_, ?_⟩
  · by_cases hd : r1 = r2
    · simp [validateSetPlayed, hd]
    · by_cases hl : r1 ≤ 0 ∧ r2 ≤ 0
      · simp only [validateSetPlayed, if_neg hd, if_pos hl]
        simp [hd]
      · rw [hbase hd hl]
        by_cases hprev : previousSetsPlayed
            (w.sets.filter (fun s => decide (s.matchId = sd.matchId))) sd.setNumber
        · simp [hprev, hd]
        · simp [hprev, hd]
  · by_cases hd : r1 = r2
    · simp [validateSetPlayed, hd]
    · by_cases hl : r1 ≤ 0 ∧ r2 ≤ 0
      · simp only [validateSetPlayed, if_neg hd, if_pos hl]
        simp [hd, hl]
      · rw [hbase hd hl]
        by_cases hprev : previousSetsPlayed
            (w.sets.filter (fun s => decide (s.matchId = sd.matchId))) sd.setNumber
        · simp [hprev, hl]
        · simp [hprev, hl]
  · by_cases hd : r1 = r2
    · simp [validateSetPlayed, hd]
    · by_cases hl : r1 ≤ 0 ∧ r2 ≤ 0
      · simp only [validateSetPlayed, if_neg hd, if_pos hl]
        simp [hd, hl]
      · rw [hbase hd hl]
        by_cases hprev : previousSetsPlayed
            (w.sets.filter (fun s => decide (s.matchId = sd.matchId))) sd.setNumber
        · rw [if_pos hprev]
          constructor
          · intro h
            exact absurd h (by simp)
          · rintro ⟨-, -, m, hm0, hmn, hall⟩
            obtain ⟨t, ht, htn, htp⟩ := hiff.mp hprev m hm0 hmn
            rw [hall t ht htn] at htp
            simp at htp
        · rw [if_neg hprev]
          have hex : ∃ m, 0 < m ∧ m < sd.setNumber
              ∧ ∀ t ∈ w.sets.filter (fun s => decide (s.matchId = sd.matchId)),
                  t.setNumber = m → t.played = false := by
            by_contra hno
            push_neg at hno
            apply hprev
            rw [hiff]
            intro m hm0 hmn
            obtain ⟨t, ht, htn, htp⟩ := hno m hm0 hmn
            exact ⟨t, ht, htn, by simpa [Bool.not_eq_false] using htp⟩
          exact ⟨fun _ => ⟨hd, hl, hex⟩, fun _ => rfl⟩
  · by_cases hd : r1 = r2
    · simp [validateSetPlayed, hd]
    · by_cases hl : r1 ≤ 0 ∧ r2 ≤ 0
      · simp only [validateSetPlayed, if_neg hd, if_pos hl]
        simp [hd, hl]
      · rw [hbase hd hl]
        by_cases hprev : previousSetsPlayed
            (w.sets.filter (fun s => decide (s.matchId = sd.matchId))) sd.setNumber
        · rw [if_pos hprev]
          exact ⟨fun _ => ⟨hd, hl, hiff.mp hprev⟩, fun _ => rfl⟩
        · rw [if_neg hprev]
          constructor
          · intro h
            exact absurd h (by simp)
          · rintro ⟨-, -, hall⟩
            exact absurd (hiff.mpr hall) hprev
  · intro hv hseg
    have hprevAll : ∀ m, 0 < m → m < sd.setNumber →
        ∃ t ∈ w.sets.filter (fun s => decide (s.matchId = sd.matchId)),
          t.setNumber = m ∧ t.played = true := by
      by_cases hd : r1 = r2
      · rw [show validateSetPlayed w setId r1 r2 = some Err.drawNotAllowed by
          simp [validateSetPlayed, hd]] at hv
        exact absurd hv (by simp)
      · by_cases hl : r1 ≤ 0 ∧ r2 ≤ 0
        · rw [show validateSetPlayed w setId r1 r2 = some Err.scoreTooLow by
            simp [validateSetPlayed, if_neg hd, hl]] at hv
          exact absurd hv (by simp)
        · rw [hbase hd hl] at hv
          by_cases hprev : previousSetsPlayed
              (w.sets.filter (fun s => decide (s.matchId = sd.matchId))) sd.setNumber
          · exact hiff.mp hprev
          · rw [if_neg hprev] at hv
            exact absurd hv (by simp)
    have hcomm : (markSetRowPlayed w.sets setId).filter
        (fun s => decide (s.matchId = sd.matchId))
        = (w.sets.filter (fun s => decide (s.matchId = sd.matchId))).map
            (fun s => if s.id = setId then { s with played := true } else s) := by
      unfold markSetRowPlayed
      apply filter_map_setRow
      intro a
      by_cases h : a.id = setId
      · simp [h]
      · simp [h]
    rw [hcomm]
    intro s' hs' hp' m hm0 hms'
    rw [List.mem_map] at hs'
    obtain ⟨s, hs, rfl⟩ := hs'
    have hsub : ∀ t ∈ w.sets.filter (fun s => decide (s.matchId = sd.matchId)),
        t.setNumber = m → t.played = true →
        ∃ u ∈ (w.sets.filter (fun s => decide (s.matchId = sd.matchId))).map
            (fun s => if s.id = setId then { s with played := true } else s),
          u.setNumber = m ∧ u.played = true := by
      intro t ht htn htp
      refine ⟨(fun s => if s.id = setId then { s with played := true } else s) t,
        List.mem_map_of_mem _ ht, ?_, ?_⟩
      · by_cases h : t.id = setId
        · simp [h, htn]
        · simp [h, htn]
      · by_cases h : t.id = setId
        · simp [h]
        · simp [h, htp]
    by_cases hid : s.id = setId
    · have hsmem : s ∈ w.sets := List.mem_of_mem_filter hs
      have hsdmem : sd ∈ w.sets := List.mem_of_find?_eq_some hf
      have hsdid : sd.id = setId := by
        have := List.find?_some hf
        simpa using this
      have hssd : s = sd := by
        apply List.inj_on_of_nodup_map hids hsmem hsdmem
        rw [hid, hsdid]
      have hmsn : m < sd.setNumber := by
        have : (if s.id = setId then { s with played := true } else s).setNumber
            = s.setNumber := by
          rw [if_pos hid]
        rw [this] at hms'
        rw [hssd] at hms'
        exact hms'
      obtain ⟨t, ht, htn, htp⟩ := hprevAll m hm0 hmsn
      exact hsub t ht htn htp
    · have heq : (if s.id = setId then { s with played := true } else s) = s := by
        rw [if_neg hid]
      rw [heq] at hp' hms'
      obtain ⟨t, ht, htn, htp⟩ := hseg s hs hp' m hm0 hms'
      exact hsub t ht htn htp

/-- Witness for claim C3: marking the second set 7-11 of worldC3 validates
successfully because set 1 is already played. -/
theorem validateSetPlayed_spec_witness :
    validateSetPlayed worldC3 "sB" 7 11 = none := by
  have h := validateSetPlayed_spec worldC3 "sB" 7 11 setC3b (by rfl) (by decide) (by decide)
  refine h.2.2.2.1.mpr ⟨by decide, by decide, ?_⟩
  intro m hm0 hm2
  have hm1 : m = 1 := by
    have : setC3b.setNumber = 2 := rfl
    omega
  subst hm1
  exact ⟨setC3a, by decide, rfl, rfl⟩


/-! Claim C6: additive standings deltas for groups-format completion. -/

theorem find?_some_id_regRow {l : List RegRow} {k : String} {r : RegRow}
    (h : l.find? (fun a => decide (a.id = k)) = some r) : r.id = k := by
  have := List.find?_some h
  simpa using this

theorem find?_some_id_setRow {l : List SetRow} {k : String} {r : SetRow}
    (h : l.find? (fun a => decide (a.id = k)) = some r) : r.id = k := by
  have := List.find?_some h
  simpa using this

theorem find?_some_id_matchRow {l : List MatchRow} {k : String} {r : MatchRow}
    (h : l.find? (fun a => decide (a.id = k)) = some r) : r.id = k := by
  have := List.find?_some h
  simpa using this

theorem updateRegistrationStandings_both (regs : List RegRow) (r1 r2 : String)
    (mr : MatchPointsResult) (sr : SetPointsResult) (reg1 reg2 : RegRow)
    (h12 : r1 ≠ r2)
    (h1 : regs.find? (fun r => decide (r.id = r1)) = some reg1)
    (h2 : regs.find? (fun r => decide (r.id = r2)) = some reg2) :
    ((updateRegistrationStandings regs r1 r2 mr sr).find? (fun r => decide (r.id = r1))
      = some { reg1 with
          matchesWon := reg1.matchesWon + (if mr.registration1Won then 1 else 0),
          matchesLost := reg1.matchesLost + (if mr.registration1Won then 0 else 1),
          setsWon := reg1.setsWon + (sr.registration1SetsWon : Int),
          setsLost := reg1.setsLost + (sr.registration1SetsLost : Int),
          points := reg1.points + mr.registration1Points })
    ∧ ((updateRegistrationStandings regs r1 r2 mr sr).find? (fun r => decide (r.id = r2))
      = some { reg2 with
          matchesWon := reg2.matchesWon + (if mr.registration2Won then 1 else 0),
          matchesLost := reg2.matchesLost + (if mr.registration2Won then 0 else 1),
          setsWon := reg2.setsWon + (sr.registration2SetsWon : Int),
          setsLost := reg2.setsLost + (sr.registration2SetsLost : Int),
          points := reg2.points + mr.registration2Points })
    ∧ (∀ r ∈ regs, r.id ≠ r1 → r.id ≠ r2 →
        r ∈ updateRegistrationStandings regs r1 r2 mr sr) := by
  have hid1 : reg1.id = r1 := find?_some_id_regRow h1
  have hid2 : reg2.id = r2 := find?_some_id_regRow h2
  have hpres1 : ∀ a : RegRow,
      ((fun r : RegRow =>
        if r.id = r1 then
          { reg1 with
            matchesWon := reg1.matchesWon + (if mr.registration1Won then 1 else 0),
            matchesLost := reg1.matchesLost + (if mr.registration1Won then 0 else 1),
            setsWon := reg1.setsWon + (sr.registration1SetsWon : Int),
            setsLost := reg1.setsLost + (sr.registration1SetsLost : Int),
            points := reg1.points + mr.registration1Points }
        else r) a).id = a.id := by
    intro a
    by_cases h : a.id = r1
    · simp [h, hid1]
    · simp [h]
  have hpres2 : ∀ a : RegRow,
      ((fun r : RegRow =>
        if r.id = r2 then
          { reg2 with
            matchesWon := reg2.matchesWon + (if mr.registration2Won then 1 else 0),
            matchesLost := reg2.matchesLost + (if mr.registration2Won then 0 else 1),
            setsWon := reg2.setsWon + (sr.registration2SetsWon : Int),
            setsLost := reg2.setsLost + (sr.registration2SetsLost : Int),
            points := reg2.points + mr.registration2Points }
        else r) a).id = a.id := by
    intro a
    by_cases h : a.id = r2
    · simp [h, hid2]
    · simp [h]
  have e2 : (regs.map (fun r : RegRow =>
        if r.id = r1 then
          { reg1 with
            matchesWon := reg1.matchesWon + (if mr.registration1Won then 1 else 0),
            matchesLost := reg1.matchesLost + (if mr.registration1Won then 0 else 1),
            setsWon := reg1.setsWon + (sr.registration1SetsWon : Int),
            setsLost := reg1.setsLost + (sr.registration1SetsLost : Int),
            points := reg1.points + mr.registration1Points }
        else r)).find? (fun r => decide (r.id = r2)) = some reg2 := by
    rw [find?_map_regRow _ _ hpres1 r2, h2]
    simp only [Option.map_some']
    rw [if_neg (by rw [hid2]; exact fun h => h12 h.symm)]
  have hres : updateRegistrationStandings regs r1 r2 mr sr
      = (regs.map (fun r : RegRow =>
          if r.id = r1 then
            { reg1 with
              matchesWon := reg1.matchesWon + (if mr.registration1Won then 1 else 0),
              matchesLost := reg1.matchesLost + (if mr.registration1Won then 0 else 1),
              setsWon := reg1.setsWon + (sr.registration1SetsWon : Int),
              setsLost := reg1.setsLost + (sr.registration1SetsLost : Int),
              points := reg1.points + mr.registration1Points }
          else r)).map (fun r : RegRow =>
          if r.id = r2 then
            { reg2 with
              matchesWon := reg2.matchesWon + (if mr.registration2Won then 1 else 0),
              matchesLost := reg2.matchesLost + (if mr.registration2Won then 0 else 1),
              setsWon := reg2.setsWon + (sr.registration2SetsWon : Int),
              setsLost := reg2.setsLost + (sr.registration2SetsLost : Int),
              points := reg2.points + mr.registration2Points }
          else r) := by
    simp only [updateRegistrationStandings, h1, e2]
  refine ⟨?_, ?_, ?_⟩
  · rw [hres, find?_map_regRow _ _ hpres2 r1, find?_map_regRow _ _ hpres1 r1, h1]
    simp only [Option.map_some']
    rw [if_pos hid1, if_neg (by simp only []; rw [hid1]; exact h12)]
  · rw [hres, find?_map_regRow _ _ hpres2 r2, e2]
    simp only [Option.map_some']
    rw [if_pos hid2]
  · intro r hr hr1 hr2
    rw [hres, List.map_map]
    refine List.mem_map.mpr ⟨r, hr, ?_⟩
    simp only [Function.comp]
    rw [if_neg hr1, if_neg hr2]

theorem updateRegistrationStandings_missing1 (regs : List RegRow) (r1 r2 : String)
    (mr : MatchPointsResult) (sr : SetPointsResult) (reg2 : RegRow)
    (h1 : regs.find? (fun r => decide (r.id = r1)) = none)
    (h2 : regs.find? (fun r => decide (r.id = r2)) = some reg2) :
    ((updateRegistrationStandings regs r1 r2 mr sr).find? (fun r => decide (r.id = r2))
      = some { reg2 with
          matchesWon := reg2.matchesWon + (if mr.registration2Won then 1 else 0),
          matchesLost := reg2.matchesLost + (if mr.registration2Won then 0 else 1),
          setsWon := reg2.setsWon + (sr.registration2SetsWon : Int),
          setsLost := reg2.setsLost + (sr.registration2SetsLost : Int),
          points := reg2.points + mr.registration2Points })
    ∧ (∀ r ∈ regs, r.id ≠ r2 → r ∈ updateRegistrationStandings regs r1 r2 mr sr) := by
  have hid2 : reg2.id = r2 := find?_some_id_regRow h2
  have hpres2 : ∀ a : RegRow,
      ((fun r : RegRow =>
        if r.id = r2 then
          { reg2 with
            matchesWon := reg2.matchesWon + (if mr.registration2Won then 1 else 0),
            matchesLost := reg2.matchesLost + (if mr.registration2Won then 0 else 1),
            setsWon := reg2.setsWon + (sr.registration2SetsWon : Int),
            setsLost := reg2.setsLost + (sr.registration2SetsLost : Int),
            points := reg2.points + mr.registration2Points }
        else r) a).id = a.id := by
    intro a
    by_cases h : a.id = r2
    · simp [h, hid2]
    · simp [h]
  have hres : updateRegistrationStandings regs r1 r2 mr sr
      = regs.map (fun r : RegRow =>
          if r.id = r2 then
            { reg2 with
              matchesWon := reg2.matchesWon + (if mr.registration2Won then 1 else 0),
              matchesLost := reg2.matchesLost + (if mr.registration2Won then 0 else 1),
              setsWon := reg2.setsWon + (sr.registration2SetsWon : Int),
              setsLost := reg2.setsLost + (sr.registration2SetsLost : Int),
              points := reg2.points + mr.registration2Points }
          else r) := by
    simp only [updateRegistrationStandings, h1, h2]
  constructor
  · rw [hres, find?_map_regRow _ _ hpres2 r2, h2]
    simp only [Option.map_some']
    rw [if_pos hid2]
  · intro r hr hr2
    rw [hres]
    refine List.mem_map.mpr ⟨r, hr, ?_⟩
    rw [if_neg hr2]

/-- Claim C6: on groups-format completion the standings updater applies
purely additive deltas: the winner gains matchesWon + 1 and pointsPerWin,
the loser gains matchesLost + 1 and pointsPerLoss, each side's setsWon
and setsLost grow by the number of played sets that side won and lost;
with a null registration slot nothing is mutated; and a registration id
that does not resolve is a no-op for that side only. -/
theorem handleGroupsMatchCompletion_spec :
    (∀ (regs : List RegRow) (m : MatchRow) (event : EventRow) (winnerId : String)
        (playedSets : List SetResult),
      (optStrTruthy m.registration1Id = false ∨ optStrTruthy m.registration2Id = false) →
      handleGroupsMatchCompletion regs m event winnerId playedSets = regs)
    ∧ (∀ (regs : List RegRow) (m : MatchRow) (event : EventRow) (winnerId : String)
        (playedSets : List SetResult) (r1 r2 : String) (reg1 reg2 : RegRow),
      m.registration1Id = some r1 → m.registration2Id = some r2 →
      r1 ≠ "" → r2 ≠ "" → r1 ≠ r2 →
      (winnerId = r1 ∨ winnerId = r2) →
      regs.find? (fun r => decide (r.id = r1)) = some reg1 →
      regs.find? (fun r => decide (r.id = r2)) = some reg2 →
      ((handleGroupsMatchCompletion regs m event winnerId playedSets).find?
          (fun r => decide (r.id = r1))
        = some { reg1 with
            matchesWon := reg1.matchesWon + (if winnerId = r1 then 1 else 0),
            matchesLost := reg1.matchesLost + (if winnerId = r1 then 0 else 1),
            setsWon := reg1.setsWon + (registration1WinCount playedSets : Int),
            setsLost := reg1.setsLost + (registration2WinCount playedSets : Int),
            points := reg1.points
              + (if winnerId = r1 then event.pointsPerWin else event.pointsPerLoss) })
      ∧ ((handleGroupsMatchCompletion regs m event winnerId playedSets).find?
          (fun r => decide (r.id = r2))
        = some { reg2 with
            matchesWon := reg2.matchesWon + (if winnerId = r2 then 1 else 0),
            matchesLost := reg2.matchesLost + (if winnerId = r2 then 0 else 1),
            setsWon := reg2.setsWon + (registration2WinCount playedSets : Int),
            setsLost := reg2.setsLost + (registration1WinCount playedSets : Int),
            points := reg2.points
              + (if winnerId = r2 then event.pointsPerWin else event.pointsPerLoss) })
      ∧ (∀ r ∈ regs, r.id ≠ r1 → r.id ≠ r2 →
          r ∈ handleGroupsMatchCompletion regs m event winnerId playedSets))
    ∧ (∀ (regs : List RegRow) (m : MatchRow) (event : EventRow) (winnerId : String)
        (playedSets : List SetResult) (r1 r2 : String) (reg2 : RegRow),
      m.registration1Id = some r1 → m.registration2Id = some r2 →
      r1 ≠ "" → r2 ≠ "" →
      regs.find? (fun r => decide (r.id = r1)) = none →
      regs.find? (fun r => decide (r.id = r2)) = some reg2 →
      ((handleGroupsMatchCompletion regs m event winnerId playedSets).find?
          (fun r => decide (r.id = r2))
        = some { reg2 with
            matchesWon := reg2.matchesWon + (if winnerId = r2 then 1 else 0),
            matchesLost := reg2.matchesLost + (if winnerId = r2 then 0 else 1),
            setsWon := reg2.setsWon + (registration2WinCount playedSets : Int),
            setsLost := reg2.setsLost + (registration1WinCount playedSets : Int),
            points := reg2.points
              + (if winnerId = r2 then event.pointsPerWin else event.pointsPerLoss) })
      ∧ (∀ r ∈ regs, r.id ≠ r2 →
          r ∈ handleGroupsMatchCompletion regs m event winnerId playedSets)) := by
  refine ⟨?_, ?_, ?_⟩
  · intro regs m event winnerId playedSets hnull
    unfold handleGroupsMatchCompletion
    rcases hnull with h | h
    · rw [if_pos (by rw [h]; simp)]
    · rw [if_pos (by rw [h]; simp)]
  · intro regs m event winnerId playedSets r1 r2 reg1 reg2 hm1 hm2 hr1 hr2 h12 hwin h1 h2
    have hred : handleGroupsMatchCompletion regs m event winnerId playedSets
        = updateRegistrationStandings regs r1 r2
            (calculateMatchPoints winnerId r1 r2 event.pointsPerWin event.pointsPerLoss)
            (calculateSetPoints playedSets) := by
      unfold handleGroupsMatchCompletion
      rw [hm1, hm2]
      rw [if_neg (by simp [optStrTruthy, hr1, hr2])]
      simp only [Option.getD_some]
    have h := updateRegistrationStandings_both regs r1 r2
      (calculateMatchPoints winnerId r1 r2 event.pointsPerWin event.pointsPerLoss)
      (calculateSetPoints playedSets) reg1 reg2 h12 h1 h2
    rw [hred]
    refine ⟨?_, ?_, h.2.2⟩
    · rw [h.1]
      simp [calculateMatchPoints, calculateSetPoints]
    · rw [h.2.1]
      simp [calculateMatchPoints, calculateSetPoints]
  · intro regs m event winnerId playedSets r1 r2 reg2 hm1 hm2 hr1 hr2 h1 h2
    have hred : handleGroupsMatchCompletion regs m event winnerId playedSets
        = updateRegistrationStandings regs r1 r2
            (calculateMatchPoints winnerId r1 r2 event.pointsPerWin event.pointsPerLoss)
            (calculateSetPoints playedSets) := by
      unfold handleGroupsMatchCompletion
      rw [hm1, hm2]
      rw [if_neg (by simp [optStrTruthy, hr1, hr2])]
      simp only [Option.getD_some]
    have h := updateRegistrationStandings_missing1 regs r1 r2
      (calculateMatchPoints winnerId r1 r2 event.pointsPerWin event.pointsPerLoss)
      (calculateSetPoints playedSets) reg2 h1 h2
    rw [hred]
    refine ⟨?_, h.2⟩
    rw [h.1]
    simp [calculateMatchPoints, calculateSetPoints]

/-- Witness for claim C6: a groups match won 2 sets to 1 by registration A
with pointsPerWin = 3 and pointsPerLoss = 0 adds one match win, two set
wins, one set loss and three points to A's existing counters. -/
theorem handleGroupsMatchCompletion_spec_witness :
    (handleGroupsMatchCompletion regsC6 matchGR eventGR "A"
        [⟨11, 5⟩, ⟨5, 11⟩, ⟨11, 7⟩]).find? (fun r => decide (r.id = "A"))
      = some { regA with matchesWon := 3, setsWon := 7, setsLost := 4, points := 9 } := by
  have h := handleGroupsMatchCompletion_spec.2.1 regsC6 matchGR eventGR "A"
    [⟨11, 5⟩, ⟨5, 11⟩, ⟨11, 7⟩] "A" "B" regA regB
    rfl rfl (by decide) (by decide) (by decide) (Or.inl rfl) (by decide) (by decide)
  rw [h.1]
  decide


/-! Claim C8: markSetPlayed rejects an already-played set without mutation. -/

theorem sets_updateGroupCompletionStatus (w : World) (g : String) :
    (updateGroupCompletionStatus w g).sets = w.sets := rfl

theorem sets_updateEventCompletedStatus (w : World) (e : String) :
    (updateEventCompletedStatus w e).sets = w.sets := rfl

theorem markSetPlayed_rejects_played (authorized : Bool) (w : World) (setId : String)
    (sd : SetRow) (hf : w.sets.find? (fun s => decide (s.id = setId)) = some sd)
    (hp : sd.played = true) :
    markSetPlayed authorized w setId = (w, [Emit.errorMsg Err.setAlreadyPlayed]) := by
  unfold markSetPlayed
  rw [hf]
  simp [hp]

theorem markSetPlayed_success_state (authorized : Bool) (w : World) (setId : String)
    (w' : World) (ems : List Emit)
    (h : markSetPlayed authorized w setId = (w', ems))
    (hev : ∃ mid mc wid, Emit.setPlayedEv mid setId mc wid ∈ ems) :
    w'.sets = markSetRowPlayed w.sets setId
    ∧ ∃ sd, w.sets.find? (fun s => decide (s.id = setId)) = some sd := by
  obtain ⟨mid, mc, wid, hmem⟩ := hev
  unfold markSetPlayed at h
  cases hfind : w.sets.find? (fun s => decide (s.id = setId)) with
  | none =>
    simp only [hfind] at h
    rw [Prod.mk.injEq] at h
    obtain ⟨-, h2⟩ := h
    rw [← h2] at hmem
    simp at hmem
  | some sd =>
    simp only [hfind] at h
    refine ⟨?_, sd, rfl⟩
    split at h
    · rw [Prod.mk.injEq] at h
      obtain ⟨-, h2⟩ := h
      rw [← h2] at hmem
      simp at hmem
    · split at h
      · rw [Prod.mk.injEq] at h
        obtain ⟨-, h2⟩ := h
        rw [← h2] at hmem
        simp at hmem
      · split at h
        · rw [Prod.mk.injEq] at h
          obtain ⟨-, h2⟩ := h
          rw [← h2] at hmem
          simp at hmem
        · split at h
          · rw [Prod.mk.injEq] at h
            obtain ⟨-, h2⟩ := h
            rw [← h2] at hmem
            simp at hmem
          · split at h
            · rw [Prod.mk.injEq] at h
              obtain ⟨-, h2⟩ := h
              rw [← h2] at hmem
              simp at hmem
            · split at h
              · rw [Prod.mk.injEq] at h
                obtain ⟨h1, -⟩ := h
                rw [← h1]
                rw [sets_updateEventCompletedStatus]
                split
                · rw [sets_updateGroupCompletionStatus]
                  split
                  · rfl
                  · split
                    · rfl
                    · rfl
                · split
                  · rfl
                  · split
                    · rfl
                    · rfl
              · rw [Prod.mk.injEq] at h
                obtain ⟨h1, -⟩ := h
                rw [← h1]

/-- Claim C8: markSetPlayed is idempotent on error: a set whose played flag
is already true is rejected with SetAlreadyPlayed and no world state is
mutated, and in particular a second markSetPlayed call on a set that a
first call successfully marked played rejects without further mutation. -/
theorem markSetPlayed_idempotent_spec :
    (∀ (authorized : Bool) (w : World) (setId : String) (sd : SetRow),
      w.sets.find? (fun s => decide (s.id = setId)) = some sd →
      sd.played = true →
      markSetPlayed authorized w setId = (w, [Emit.errorMsg Err.setAlreadyPlayed]))
    ∧ (∀ (authorized : Bool) (w : World) (setId : String) (w' : World) (ems : List Emit),
      markSetPlayed authorized w setId = (w', ems) →
      (∃ mid mc wid, Emit.setPlayedEv mid setId mc wid ∈ ems) →
      markSetPlayed authorized w' setId = (w', [Emit.errorMsg Err.setAlreadyPlayed])) := by
  constructor
  · intro authorized w setId sd hf hp
    exact markSetPlayed_rejects_played authorized w setId sd hf hp
  · intro authorized w setId w' ems h hev
    obtain ⟨hsets, sd, hfind⟩ := markSetPlayed_success_state authorized w setId w' ems h hev
    have hid : sd.id = setId := find?_some_id_setRow hfind
    have hf' : w'.sets.find? (fun s => decide (s.id = setId))
        = some { sd with played := true } := by
      rw [hsets]
      unfold markSetRowPlayed
      rw [find?_map_setRow _ _ (fun a => by
        by_cases hh : a.id = setId
        · simp [hh]
        · simp [hh]) setId, hfind]
      simp only [Option.map_some']
      rw [if_pos hid]
    exact markSetPlayed_rejects_played authorized w' setId _ hf' rfl

/-- Witness for claim C8: the already-played set of worldC4 is rejected
with no mutation, and marking the pending set of worldDE and then marking
it again rejects the second call with no mutation. -/
theorem markSetPlayed_idempotent_spec_witness :
    markSetPlayed true worldC4 "s1" = (worldC4, [Emit.errorMsg Err.setAlreadyPlayed])
    ∧ markSetPlayed true (markSetPlayed true worldDE "s1").1 "s1"
        = ((markSetPlayed true worldDE "s1").1, [Emit.errorMsg Err.setAlreadyPlayed]) := by
  constructor
  · exact markSetPlayed_idempotent_spec.1 true worldC4 "s1" setC4 (by rfl) rfl
  · exact markSetPlayed_idempotent_spec.2 true worldDE "s1"
      (markSetPlayed true worldDE "s1").1 (markSetPlayed true worldDE "s1").2 rfl
      ⟨"m1", true, some "A", by decide⟩


/-! Claims C9 and C10: updateMatch on a played match. -/

theorem applyMatchUpdate_parts (w : World) (matchId : String)
    (pw : Option (Bool × Option String)) (md : Option (Option String)) (emits0 : List Emit)
    (m : MatchRow)
    (hm : w.matchRows.find? (fun x => decide (x.id = matchId)) = some m) :
    ((applyMatchUpdate w matchId pw md emits0).1.sets = w.sets)
    ∧ ((applyMatchUpdate w matchId pw md emits0).1.events = w.events)
    ∧ ((applyMatchUpdate w matchId pw md emits0).1.groups = w.groups)
    ∧ ((applyMatchUpdate w matchId pw md emits0).1.registrations = w.registrations)
    ∧ ((applyMatchUpdate w matchId pw md emits0).1.matchRows.find?
          (fun x => decide (x.id = matchId)) = some (mdApply md (pwApply pw m)))
    ∧ (∀ x ∈ w.matchRows, x.id ≠ matchId →
          x ∈ (applyMatchUpdate w matchId pw md emits0).1.matchRows)
    ∧ ((applyMatchUpdate w matchId pw md emits0).2
        = emits0 ++ [Emit.matchUpdatedEv matchId (mdApply md (pwApply pw m)).played
            (mdApply md (pwApply pw m)).matchDate (mdApply md (pwApply pw m)).winnerId]) := by
  have hid : m.id = matchId := find?_some_id_matchRow hm
  have hpres : ∀ a : MatchRow,
      ((fun x : MatchRow =>
        if x.id = matchId then mdApply md (pwApply pw x) else x) a).id = a.id := by
    intro a
    by_cases h : a.id = matchId
    · cases md with
      | none =>
        cases pw with
        | none => simp [h, mdApply, pwApply]
        | some p => simp [h, mdApply, pwApply]
      | some d =>
        cases pw with
        | none => simp [h, mdApply, pwApply]
        | some p => simp [h, mdApply, pwApply]
    · simp [h]
  have hfind2 : (w.matchRows.map (fun x : MatchRow =>
      if x.id = matchId then mdApply md (pwApply pw x) else x)).find?
        (fun x => decide (x.id = matchId)) = some (mdApply md (pwApply pw m)) := by
    rw [find?_map_matchRow _ _ hpres matchId, hm]
    simp only [Option.map_some']
    rw [if_pos hid]
  have hred : applyMatchUpdate w matchId pw md emits0
      = ({ w with matchRows := w.matchRows.map (fun x : MatchRow =>
            if x.id = matchId then mdApply md (pwApply pw x) else x) },
         emits0 ++ [Emit.matchUpdatedEv matchId (mdApply md (pwApply pw m)).played
            (mdApply md (pwApply pw m)).matchDate (mdApply md (pwApply pw m)).winnerId]) := by
    unfold applyMatchUpdate
    simp only [hfind2]
  rw [hred]
  refine ⟨rfl, rfl, rfl, rfl, ?_, ?_, rfl⟩
  · exact hfind2
  · intro x hx hxid
    refine List.mem_map.mpr ⟨x, hx, ?_⟩
    rw [if_neg hxid]

/-- Claim C9: on a played match, updateMatch with played = false sets the
played flag to false and clears winnerId, and changes nothing else: sets,
events, groups, registrations, the other matches and every other column of
the match itself are untouched, and only a match-updated event is emitted
(no rollback of standings or bracket advancement). -/
theorem updateMatch_unmark_spec (w : World) (matchId : String) (m : MatchRow) (ev : EventRow)
    (hm : w.matchRows.find? (fun x => decide (x.id = matchId)) = some m)
    (hp : m.played = true)
    (he : w.events.find? (fun e => decide (e.id = m.eventId)) = some ev) :
    ((updateMatch true w matchId (some false) none).1.sets = w.sets)
    ∧ ((updateMatch true w matchId (some false) none).1.events = w.events)
    ∧ ((updateMatch true w matchId (some false) none).1.groups = w.groups)
    ∧ ((updateMatch true w matchId (some false) none).1.registrations = w.registrations)
    ∧ ((updateMatch true w matchId (some false) none).1.matchRows.find?
        (fun x => decide (x.id = matchId))
        = some { m with played := false, winnerId := none })
    ∧ (∀ x ∈ w.matchRows, x.id ≠ matchId →
        x ∈ (updateMatch true w matchId (some false) none).1.matchRows)
    ∧ ((updateMatch true w matchId (some false) none).2
        = [Emit.matchUpdatedEv matchId false m.matchDate none]) := by
  have hred : updateMatch true w matchId (some false) none
      = applyMatchUpdate w matchId (some (false, none)) none [] := by
    unfold updateMatch
    simp only [hm, he]
    simp [hp]
  have h := applyMatchUpdate_parts w matchId (some (false, none)) none [] m hm
  rw [hred]
  simp only [mdApply, pwApply] at h
  exact h

/-- Witness for claim C9: unmarking the played match of worldPL flips only
its played flag and winnerId and emits only a match-updated event. -/
theorem updateMatch_unmark_spec_witness :
    ((updateMatch true worldPL "m1" (some false) none).1.sets = worldPL.sets)
    ∧ ((updateMatch true worldPL "m1" (some false) none).1.registrations
        = worldPL.registrations)
    ∧ ((updateMatch true worldPL "m1" (some false) none).1.matchRows.find?
        (fun x => decide (x.id = "m1"))
        = some { matchPL with played := false, winnerId := none })
    ∧ ((updateMatch true worldPL "m1" (some false) none).2
        = [Emit.matchUpdatedEv "m1" false matchPL.matchDate none]) := by
  have h := updateMatch_unmark_spec worldPL "m1" matchPL eventDE (by rfl) rfl (by rfl)
  exact ⟨h.1, h.2.2.2.1, h.2.2.2.2.1, h.2.2.2.2.2.2⟩

/-- Claim C10: updateMatch with played = true on an already-played match
succeeds without running match-completion validation: no error of any kind
(in particular neither TiedSeries nor NoMajority) is emitted, the played
flag and winnerId are left unchanged, only matchDate is written when
supplied, no match-completed event is emitted, and a match-updated event
is still broadcast; sets, events, groups and registrations are untouched. -/
theorem updateMatch_alreadyPlayed_spec (w : World) (matchId : String) (m : MatchRow)
    (ev : EventRow) (mdOpt : Option (Option String))
    (hm : w.matchRows.find? (fun x => decide (x.id = matchId)) = some m)
    (hp : m.played = true)
    (he : w.events.find? (fun e => decide (e.id = m.eventId)) = some ev) :
    ((updateMatch true w matchId (some true) mdOpt).1.sets = w.sets)
    ∧ ((updateMatch true w matchId (some true) mdOpt).1.events = w.events)
    ∧ ((updateMatch true w matchId (some true) mdOpt).1.groups = w.groups)
    ∧ ((updateMatch true w matchId (some true) mdOpt).1.registrations = w.registrations)
    ∧ ((updateMatch true w matchId (some true) mdOpt).1.matchRows.find?
        (fun x => decide (x.id = matchId))
        = some (match mdOpt with
                | none => m
                | some v => { m with matchDate := if optStrTruthy v then v else none }))
    ∧ (∀ x ∈ w.matchRows, x.id ≠ matchId →
        x ∈ (updateMatch true w matchId (some true) mdOpt).1.matchRows)
    ∧ ((updateMatch true w matchId (some true) mdOpt).2
        = [Emit.matchUpdatedEv matchId m.played
            (match mdOpt with
             | none => m.matchDate
             | some v => if optStrTruthy v then v else none) m.winnerId])
    ∧ (∀ e, Emit.errorMsg e ∉ (updateMatch true w matchId (some true) mdOpt).2)
    ∧ (∀ a b, Emit.matchCompletedEv a b ∉ (updateMatch true w matchId (some true) mdOpt).2) := by
  have hred : updateMatch true w matchId (some true) mdOpt
      = applyMatchUpdate w matchId none
          (match mdOpt with
           | none => none
           | some v => some (if optStrTruthy v then v else none)) [] := by
    unfold updateMatch
    simp only [hm, he]
    simp [hp]
  have h := applyMatchUpdate_parts w matchId none
    (match mdOpt with
     | none => none
     | some v => some (if optStrTruthy v then v else none)) [] m hm
  rw [hred]
  cases mdOpt with
  | none =>
    simp only [mdApply, pwApply] at h
    refine ⟨h.1, h.2.1, h.2.2.1, h.2.2.2.1, h.2.2.2.2.1, h.2.2.2.2.2.1, ?_, ?_, ?_⟩
    · rw [h.2.2.2.2.2.2]
      rfl
    · intro e
      rw [h.2.2.2.2.2.2]
      simp
    · intro a b
      rw [h.2.2.2.2.2.2]
      simp
  | some v =>
    simp only [mdApply, pwApply] at h
    refine ⟨h.1, h.2.1, h.2.2.1, h.2.2.2.1, h.2.2.2.2.1, h.2.2.2.2.2.1, ?_, ?_, ?_⟩
    · rw [h.2.2.2.2.2.2]
      rfl
    · intro e
      rw [h.2.2.2.2.2.2]
      simp
    · intro a b
      rw [h.2.2.2.2.2.2]
      simp

/-- Witness for claim C10: re-sending played = true with a new date for
the played match of worldPL rewrites only matchDate and emits only a
match-updated event. -/
theorem updateMatch_alreadyPlayed_spec_witness :
    ((updateMatch true worldPL "m1" (some true) (some (some "2026-02-02"))).1.matchRows.find?
        (fun x => decide (x.id = "m1"))
        = some { matchPL with matchDate := some "2026-02-02" })
    ∧ ((updateMatch true worldPL "m1" (some true) (some (some "2026-02-02"))).2
        = [Emit.matchUpdatedEv "m1" matchPL.played (some "2026-02-02") matchPL.winnerId])
    ∧ (∀ a b, Emit.matchCompletedEv a b
        ∉ (updateMatch true worldPL "m1" (some true) (some (some "2026-02-02"))).2) := by
  have h := updateMatch_alreadyPlayed_spec worldPL "m1" matchPL eventDE
    (some (some "2026-02-02")) (by rfl) rfl (by rfl)
  refine ⟨?_, ?_, h.2.2.2.2.2.2.2.2⟩
  · rw [h.2.2.2.2.1]
    rfl
  · rw [h.2.2.2.2.2.2.1]
    rfl


/-! Claim C2: format dispatch of the markSetPlayed completion branch. -/

theorem registrations_updateEventCompletedStatus (w : World) (e : String) :
    (updateEventCompletedStatus w e).registrations = w.registrations := rfl

theorem registrations_updateGroupCompletionStatus (w : World) (g : String) :
    (updateGroupCompletionStatus w g).registrations = w.registrations := rfl

theorem matchRows_updateEventCompletedStatus (w : World) (e : String) :
    (updateEventCompletedStatus w e).matchRows = w.matchRows := rfl

theorem matchRows_updateGroupCompletionStatus (w : World) (g : String) :
    (updateGroupCompletionStatus w g).matchRows = w.matchRows := rfl

theorem markSetPlayed_completed_eq (w : World) (setId : String)
    (sd : SetRow) (m : MatchRow) (event : EventRow) (wid : String)
    (hf : w.sets.find? (fun s => decide (s.id = setId)) = some sd)
    (hp : sd.played = false)
    (hm : w.matchRows.find? (fun x => decide (x.id = sd.matchId)) = some m)
    (he : w.events.find? (fun e => decide (e.id = m.eventId)) = some event)
    (hv : validateSetPlayed w setId sd.registration1Score sd.registration2Score = none)
    (hmaj : checkMajorityAndGetWinner
        ((((markSetRowPlayed w.sets setId).filter
            (fun s => decide (s.matchId = sd.matchId))).filter
          (fun s => s.played)).map toSetResult) event.bestOf m.registration1Id m.registration2Id
        = { winnerId := some wid, completed := true })
    (hwid : wid ≠ "") :
    markSetPlayed true w setId
      = (completionWorld w setId sd m event wid,
         [Emit.matchCompletedEv sd.matchId wid,
          Emit.setPlayedEv sd.matchId setId true (some wid)]) := by
  unfold markSetPlayed
  simp only [hf, hp, hm, he, hv, hmaj, Bool.not_true, Bool.false_eq_true, if_false,
    Option.getD_some]
  simp only [optStrTruthy, ne_eq, hwid, not_false_eq_true, decide_True, Bool.and_self,
    Bool.and_true, Bool.true_and, if_true]
  simp only [completionWorld, markSetRowPlayed, optStrTruthy]

theorem advance_mem_of_ne (ms : List MatchRow) (next : String) (slot : Nat) (wid' : String) :
    ∀ x ∈ ms, x.id ≠ next → x ∈ advanceWinnerToNextMatch ms next slot wid' := by
  intro x hx hne
  unfold advanceWinnerToNextMatch
  exact List.mem_map.mpr ⟨x, hx, by rw [if_neg hne]⟩

theorem advance_shape (ms : List MatchRow) (next : String) (slot : Nat) (wid' : String) :
    ∀ x ∈ advanceWinnerToNextMatch ms next slot wid',
      ∃ y ∈ ms, x.id = y.id ∧ x.played = y.played ∧ x.winnerId = y.winnerId := by
  intro x hx
  unfold advanceWinnerToNextMatch at hx
  obtain ⟨y, hy, rfl⟩ := List.mem_map.mp hx
  refine ⟨y, hy, ?_⟩
  by_cases h : y.id = next
  · by_cases hs : slot = 1
    · simp [h, hs]
    · simp [h, hs]
  · simp [h]

theorem advance_find_target (ms : List MatchRow) (next : String) (slot : Nat) (wid' : String)
    (tm : MatchRow) (htm : ms.find? (fun x => decide (x.id = next)) = some tm) :
    (advanceWinnerToNextMatch ms next slot wid').find? (fun x => decide (x.id = next))
      = some (if slot = 1 then { tm with registration1Id := some wid' }
              else { tm with registration2Id := some wid' }) := by
  have hpres : ∀ a : MatchRow,
      ((fun x : MatchRow =>
        if x.id = next then
          if slot = 1 then { x with registration1Id := some wid' }
          else { x with registration2Id := some wid' }
        else x) a).id = a.id := by
    intro a
    by_cases h : a.id = next
    · by_cases hs : slot = 1
      · simp [h, hs]
      · simp [h, hs]
    · simp [h]
  unfold advanceWinnerToNextMatch
  rw [find?_map_matchRow _ _ hpres next, htm]
  simp only [Option.map_some']
  rw [if_pos (find?_some_id_matchRow htm)]


theorem advance_image (ms : List MatchRow) (next : String) (slot : Nat) (wid' : String) :
    ∀ x ∈ ms, ∃ x' ∈ advanceWinnerToNextMatch ms next slot wid',
      x'.id = x.id ∧ x'.played = x.played ∧ x'.winnerId = x.winnerId := by
  intro x hx
  unfold advanceWinnerToNextMatch
  refine ⟨_, List.mem_map_of_mem _ hx, ?_⟩
  by_cases h : x.id = next
  · by_cases hs : slot = 1
    · simp [h, hs]
    · simp [h, hs]
  · simp [h]

theorem completedMap_flags (ms : List MatchRow) (mid : String) (wid : String) :
    ∀ x ∈ ms.map (fun x : MatchRow =>
        if x.id = mid then { x with played := true, winnerId := some wid } else x),
      x.id = mid → x.played = true ∧ x.winnerId = some wid := by
  intro x hx hxid
  obtain ⟨y, hy, rfl⟩ := List.mem_map.mp hx
  by_cases hyid : y.id = mid
  · constructor
    · simp [hyid]
    · simp [hyid]
  · rw [if_neg hyid] at hxid
    exact absurd hxid hyid

theorem completedMap_frame (ms : List MatchRow) (mid : String) (wid : String) :
    ∀ x ∈ ms, x.id ≠ mid →
      x ∈ ms.map (fun x : MatchRow =>
        if x.id = mid then { x with played := true, winnerId := some wid } else x) := by
  intro x hx hne
  exact List.mem_map.mpr ⟨x, hx, by rw [if_neg hne]⟩

theorem completionWorld_matchRows (w : World) (setId : String) (sd : SetRow) (m : MatchRow)
    (event : EventRow) (wid : String) :
    (completionWorld w setId sd m event wid).matchRows
      = (if isGroupsFormat event.format = true then
           w.matchRows.map (fun x : MatchRow =>
             if x.id = sd.matchId then { x with played := true, winnerId := some wid } else x)
         else if isSingleEliminationFormat event.format = true then
           handleSingleEliminationMatchCompletion
             (w.matchRows.map (fun x : MatchRow =>
               if x.id = sd.matchId then { x with played := true, winnerId := some wid } else x))
             m wid
         else
           w.matchRows.map (fun x : MatchRow =>
             if x.id = sd.matchId then { x with played := true, winnerId := some wid } else x)) := by
  simp only [completionWorld]
  rw [matchRows_updateEventCompletedStatus]
  by_cases hg : optStrTruthy m.groupId = true
  · rw [if_pos hg, matchRows_updateGroupCompletionStatus]
    by_cases h1 : isGroupsFormat event.format = true
    · rw [if_pos h1, if_pos h1]
    · rw [if_neg h1, if_neg h1]
      by_cases h2 : isSingleEliminationFormat event.format = true
      · rw [if_pos h2, if_pos h2]
      · rw [if_neg h2, if_neg h2]
  · rw [if_neg hg]
    by_cases h1 : isGroupsFormat event.format = true
    · rw [if_pos h1, if_pos h1]
    · rw [if_neg h1, if_neg h1]
      by_cases h2 : isSingleEliminationFormat event.format = true
      · rw [if_pos h2, if_pos h2]
      · rw [if_neg h2, if_neg h2]

theorem completionWorld_registrations (w : World) (setId : String) (sd : SetRow)
    (m : MatchRow) (event : EventRow) (wid : String) :
    (completionWorld w setId sd m event wid).registrations
      = (if isGroupsFormat event.format = true then
           handleGroupsMatchCompletion w.registrations m event wid
             ((((markSetRowPlayed w.sets setId).filter
                 (fun s => decide (s.matchId = sd.matchId))).filter
               (fun s => s.played)).map toSetResult)
         else w.registrations) := by
  simp only [completionWorld]
  rw [registrations_updateEventCompletedStatus]
  by_cases hg : optStrTruthy m.groupId = true
  · rw [if_pos hg, registrations_updateGroupCompletionStatus]
    by_cases h1 : isGroupsFormat event.format = true
    · rw [if_pos h1, if_pos h1]
    · rw [if_neg h1, if_neg h1]
      by_cases h2 : isSingleEliminationFormat event.format = true
      · rw [if_pos h2]
      · rw [if_neg h2]
  · rw [if_neg hg]
    by_cases h1 : isGroupsFormat event.format = true
    · rw [if_pos h1, if_pos h1]
    · rw [if_neg h1, if_neg h1]
      by_cases h2 : isSingleEliminationFormat event.format = true
      · rw [if_pos h2]
      · rw [if_neg h2]

/-- Claim C2 counterexample: in the double-elimination world worldDE,
marking set s1 played completes match m1 with winner A, yet neither the
winner destination m2 nor the loser destination m3 receives any
registration: the orchestrator performs no double-elimination routing and
no BYE cascade, contradicting the claimed dispatch. -/
theorem markSetPlayed_doubleElim_cex :
    ((markSetPlayed true worldDE "s1").2
      = [Emit.matchCompletedEv "m1" "A", Emit.setPlayedEv "m1" "s1" true (some "A")])
    ∧ (((markSetPlayed true worldDE "s1").1.matchRows.find?
        (fun x => decide (x.id = "m1"))).map (fun x => (x.played, x.winnerId))
        = some (true, some "A"))
    ∧ (((markSetPlayed true worldDE "s1").1.matchRows.find?
        (fun x => decide (x.id = "m2"))).map (fun x => x.registration1Id) = some none)
    ∧ (((markSetPlayed true worldDE "s1").1.matchRows.find?
        (fun x => decide (x.id = "m3"))).map (fun x => x.registration1Id) = some none) := by
  refine ⟨by decide, by decide, by decide, by decide⟩

/-- Claim C2 (amended): when marking a set played completes the match with
a non-empty winner id, the orchestrator writes played and winnerId on the
match and emits the match-completed then set-played events, and then
dispatches by format: groups and groups-knockout run the Standings Updater
and perform no bracket write; single-elimination advances the winner into
the winnerTo slot but runs no BYE cascade, leaving every other match's
played flag and winnerId unchanged; any other format, including
double-elimination, performs no dispatch at all and leaves every other
match row untouched. -/
theorem markSetPlayed_dispatch_spec (w : World) (setId : String)
    (sd : SetRow) (m : MatchRow) (event : EventRow) (wid : String)
    (hf : w.sets.find? (fun s => decide (s.id = setId)) = some sd)
    (hp : sd.played = false)
    (hm : w.matchRows.find? (fun x => decide (x.id = sd.matchId)) = some m)
    (he : w.events.find? (fun e => decide (e.id = m.eventId)) = some event)
    (hv : validateSetPlayed w setId sd.registration1Score sd.registration2Score = none)
    (hmaj : checkMajorityAndGetWinner
        ((((markSetRowPlayed w.sets setId).filter
            (fun s => decide (s.matchId = sd.matchId))).filter
          (fun s => s.played)).map toSetResult) event.bestOf m.registration1Id m.registration2Id
        = { winnerId := some wid, completed := true })
    (hwid : wid ≠ "") :
    ((markSetPlayed true w setId).2
      = [Emit.matchCompletedEv sd.matchId wid,
         Emit.setPlayedEv sd.matchId setId true (some wid)])
    ∧ (∀ x ∈ (markSetPlayed true w setId).1.matchRows, x.id = sd.matchId →
        (x.played = true ∧ x.winnerId = some wid))
    ∧ (isGroupsFormat event.format = true →
        ((markSetPlayed true w setId).1.registrations
          = handleGroupsMatchCompletion w.registrations m event wid
              ((((markSetRowPlayed w.sets setId).filter
                  (fun s => decide (s.matchId = sd.matchId))).filter
                (fun s => s.played)).map toSetResult))
        ∧ (∀ x ∈ w.matchRows, x.id ≠ sd.matchId →
            x ∈ (markSetPlayed true w setId).1.matchRows))
    ∧ (isSingleEliminationFormat event.format = true →
        ((markSetPlayed true w setId).1.registrations = w.registrations)
        ∧ (∀ x ∈ w.matchRows, x.id ≠ sd.matchId →
            ∃ x' ∈ (markSetPlayed true w setId).1.matchRows,
              x'.id = x.id ∧ x'.played = x.played ∧ x'.winnerId = x.winnerId)
        ∧ (∀ t tm, m.winnerTo = some t → t ≠ "" → optNatTruthy m.winnerToSlot = true →
            t ≠ sd.matchId →
            w.matchRows.find? (fun x => decide (x.id = t)) = some tm →
            (markSetPlayed true w setId).1.matchRows.find? (fun x => decide (x.id = t))
              = some (if m.winnerToSlot.getD 0 = 1
                      then { tm with registration1Id := some wid }
                      else { tm with registration2Id := some wid })))
    ∧ ((isGroupsFormat event.format = false ∧ isSingleEliminationFormat event.format = false) →
        ((markSetPlayed true w setId).1.registrations = w.registrations)
        ∧ (∀ x ∈ w.matchRows, x.id ≠ sd.matchId →
            x ∈ (markSetPlayed true w setId).1.matchRows)) := by
  have hW := markSetPlayed_completed_eq w setId sd m event wid hf hp hm he hv hmaj hwid
  have hMR := completionWorld_matchRows w setId sd m event wid
  have hREG := completionWorld_registrations w setId sd m event wid
  refine ⟨?_, ?_, ?_, ?_, ?_⟩
  · rw [hW]
  · simp only [hW]
    rw [hMR]
    by_cases h1 : isGroupsFormat event.format = true
    · rw [if_pos h1]
      exact completedMap_flags w.matchRows sd.matchId wid
    · rw [if_neg h1]
      by_cases h2 : isSingleEliminationFormat event.format = true
      · rw [if_pos h2]
        intro x hx hxid
        unfold handleSingleEliminationMatchCompletion at hx
        by_cases hc : (optStrTruthy m.winnerTo && optNatTruthy m.winnerToSlot
            && decide (wid ≠ "")) = true
        · rw [if_pos hc] at hx
          obtain ⟨y, hy, hid', hpl, hwin⟩ := advance_shape _ _ _ _ x hx
          have hflags := completedMap_flags w.matchRows sd.matchId wid y hy
            (by rw [← hid', hxid])
          exact ⟨by rw [hpl, hflags.1], by rw [hwin, hflags.2]⟩
        · rw [if_neg hc] at hx
          exact completedMap_flags w.matchRows sd.matchId wid x hx hxid
      · rw [if_neg h2]
        exact completedMap_flags w.matchRows sd.matchId wid
  · intro h1
    constructor
    · simp only [hW]
      rw [hREG, if_pos h1]
    · intro x hx hne
      simp only [hW]
      rw [hMR, if_pos h1]
      exact completedMap_frame w.matchRows sd.matchId wid x hx hne
  · intro h2
    have h1 : isGroupsFormat event.format = false := by
      cases hval : isGroupsFormat event.format with
      | false => rfl
      | true =>
        exfalso
        have := h2
        unfold isGroupsFormat at hval
        unfold isSingleEliminationFormat at this
        rcases Bool.or_eq_true_iff.mp hval with hx | hx
        · rw [decide_eq_true_eq] at hx
          rw [hx] at this
          simp at this
        · rw [decide_eq_true_eq] at hx
          rw [hx] at this
          simp at this
    refine ⟨?_, ?_, ?_⟩
    · simp only [hW]
      rw [hREG, if_neg (by rw [h1]; exact Bool.false_ne_true)]
    · intro x hx hne
      simp only [hW]
      rw [hMR, if_neg (by rw [h1]; exact Bool.false_ne_true), if_pos h2]
      unfold handleSingleEliminationMatchCompletion
      by_cases hc : (optStrTruthy m.winnerTo && optNatTruthy m.winnerToSlot
          && decide (wid ≠ "")) = true
      · rw [if_pos hc]
        exact advance_image _ _ _ _ x (completedMap_frame w.matchRows sd.matchId wid x hx hne)
      · rw [if_neg hc]
        exact ⟨x, completedMap_frame w.matchRows sd.matchId wid x hx hne, rfl, rfl, rfl⟩
    · intro t tm hwt ht hslot htne htm
      simp only [hW]
      rw [hMR, if_neg (by rw [h1]; exact Bool.false_ne_true), if_pos h2]
      unfold handleSingleEliminationMatchCompletion
      have hc : (optStrTruthy m.winnerTo && optNatTruthy m.winnerToSlot
          && decide (wid ≠ "")) = true := by
        rw [hwt]
        simp [optStrTruthy, ht, hslot, hwid]
      rw [if_pos hc]
      have hgt : (w.matchRows.map (fun x : MatchRow =>
          if x.id = sd.matchId then { x with played := true, winnerId := some wid } else x)).find?
            (fun x => decide (x.id = t)) = some tm := by
        have hpres : ∀ a : MatchRow, ((fun x : MatchRow =>
            if x.id = sd.matchId then { x with played := true, winnerId := some wid } else x) a).id
              = a.id := by
          intro a
          by_cases h : a.id = sd.matchId
          · simp [h]
          · simp [h]
        rw [find?_map_matchRow _ _ hpres t, htm]
        simp only [Option.map_some']
        rw [if_neg (by rw [find?_some_id_matchRow htm]; exact htne)]
      rw [hwt]
      simp only [Option.getD_some]
      exact advance_find_target _ t (m.winnerToSlot.getD 0) wid tm hgt
  · rintro ⟨h1, h2⟩
    constructor
    · simp only [hW]
      rw [hREG, if_neg (by rw [h1]; exact Bool.false_ne_true)]
    · intro x hx hne
      simp only [hW]
      rw [hMR, if_neg (by rw [h1]; exact Bool.false_ne_true),
        if_neg (by rw [h2]; exact Bool.false_ne_true)]
      exact completedMap_frame w.matchRows sd.matchId wid x hx hne

/-- Witness for the amended claim C2: completing the single-elimination
match m1 of worldSE advances winner A into slot 1 of m2 and leaves the
registrations table untouched. -/
theorem markSetPlayed_dispatch_spec_witness :
    ((markSetPlayed true worldSE "s1").2
      = [Emit.matchCompletedEv "m1" "A", Emit.setPlayedEv "m1" "s1" true (some "A")])
    ∧ ((markSetPlayed true worldSE "s1").1.registrations = worldSE.registrations)
    ∧ ((markSetPlayed true worldSE "s1").1.matchRows.find? (fun x => decide (x.id = "m2"))
        = some { matchDE2 with registration1Id := some "A" }) := by
  have h := markSetPlayed_dispatch_spec worldSE "s1" setDE matchDE1 eventSE "A"
    (by rfl) rfl (by rfl) (by rfl) (by rfl) (by decide) (by decide)
  have hse := h.2.2.2.1 (by decide)
  refine ⟨h.1, hse.1, ?_⟩
  have := hse.2.2 "m2" matchDE2 rfl (by decide) (by decide) (by decide) (by decide)
  rw [this]
  rfl


/-! Claim C5: termination and visit bounds of the BYE cascade. -/

theorem cascade_succ_eq (fuel : Nat) (ms : List MatchRow) (matchId eventId : String) :
    checkAndAutoAdvanceBye (fuel + 1) ms matchId eventId
      = (match ms.find? (fun m => decide (m.id = matchId)) with
         | none => (ms, [])
         | some m =>
           if m.played then (ms, [matchId])
           else if m.registration1Id.isSome = m.registration2Id.isSome then (ms, [matchId])
           else
             let soloRegistrationId := jsOrStr m.registration1Id m.registration2Id
             if hasPendingFeederFn ms matchId eventId then (ms, [matchId])
             else
               let ms1 := ms.map (fun x =>
                 if x.id = matchId then
                   { x with winnerId := soloRegistrationId, played := true } else x)
               if optStrTruthy m.winnerTo && optNatTruthy m.winnerToSlot
                   && optStrTruthy soloRegistrationId then
                 let ms2 := advanceWinnerToNextMatch ms1 (m.winnerTo.getD "")
                   (m.winnerToSlot.getD 0) (soloRegistrationId.getD "")
                 let r := checkAndAutoAdvanceBye fuel ms2 (m.winnerTo.getD "") eventId
                 (r.1, matchId :: r.2)
               else (ms1, [matchId])) := rfl

theorem rankOkB_spec {rank : String → Nat} {ms : List MatchRow}
    (h : rankOkB rank ms = true) :
    ∀ x ∈ ms, ∀ t, x.winnerTo = some t → rank t < rank x.id := by
  intro x hx t ht
  unfold rankOkB at h
  rw [List.all_eq_true] at h
  have hb := h x hx
  rw [ht] at hb
  simpa using hb

theorem rankOkB_map (rank : String → Nat) (ms : List MatchRow) (f : MatchRow → MatchRow)
    (hid : ∀ a, (f a).id = a.id) (hwt : ∀ a, (f a).winnerTo = a.winnerTo) :
    rankOkB rank (ms.map f) = rankOkB rank ms := by
  unfold rankOkB
  rw [List.all_map]
  congr 1
  funext a
  simp only [Function.comp_apply, hid a, hwt a]

theorem idsMap_map (ms : List MatchRow) (f : MatchRow → MatchRow)
    (hid : ∀ a, (f a).id = a.id) :
    (ms.map f).map (fun x => x.id) = ms.map (fun x => x.id) := by
  rw [List.map_map]
  congr 1
  funext a
  simp only [Function.comp_apply, hid a]

theorem rankOkB_cascadeStep (rank : String → Nat) (ms : List MatchRow) (matchId : String)
    (solo : Option String) (wt : String) (slot : Nat) (wid' : String) :
    rankOkB rank (advanceWinnerToNextMatch (ms.map (fun x : MatchRow =>
        if x.id = matchId then { x with winnerId := solo, played := true } else x))
      wt slot wid') = rankOkB rank ms := by
  unfold advanceWinnerToNextMatch
  rw [rankOkB_map _ _ _ ?hid2 ?hwt2, rankOkB_map _ _ _ ?hid1 ?hwt1]
  case hid2 =>
    intro a
    by_cases h : a.id = wt
    · by_cases hs : slot = 1
      · simp [h, hs]
      · simp [h, hs]
    · simp [h]
  case hwt2 =>
    intro a
    by_cases h : a.id = wt
    · by_cases hs : slot = 1
      · simp [h, hs]
      · simp [h, hs]
    · simp [h]
  case hid1 =>
    intro a
    by_cases h : a.id = matchId
    · simp [h]
    · simp [h]
  case hwt1 =>
    intro a
    by_cases h : a.id = matchId
    · simp [h]
    · simp [h]

theorem ids_cascadeStep (ms : List MatchRow) (matchId : String)
    (solo : Option String) (wt : String) (slot : Nat) (wid' : String) :
    (advanceWinnerToNextMatch (ms.map (fun x : MatchRow =>
        if x.id = matchId then { x with winnerId := solo, played := true } else x))
      wt slot wid').map (fun x => x.id) = ms.map (fun x => x.id) := by
  unfold advanceWinnerToNextMatch
  rw [idsMap_map _ _ ?hid2, idsMap_map _ _ ?hid1]
  case hid2 =>
    intro a
    by_cases h : a.id = wt
    · by_cases hs : slot = 1
      · simp [h, hs]
      · simp [h, hs]
    · simp [h]
  case hid1 =>
    intro a
    by_cases h : a.id = matchId
    · simp [h]
    · simp [h]

theorem cascade_trace_le (rank : String → Nat) :
    ∀ (fuel : Nat) (ms : List MatchRow) (matchId eventId : String),
      rankOkB rank ms = true →
      ∀ x ∈ (checkAndAutoAdvanceBye fuel ms matchId eventId).2, rank x ≤ rank matchId := by
  intro fuel
  induction fuel with
  | zero =>
    intro ms matchId eventId hok x hx
    simp [checkAndAutoAdvanceBye] at hx
  | succ fuel ih =>
    intro ms matchId eventId hok x hx
    rw [cascade_succ_eq] at hx
    cases hfind : ms.find? (fun m => decide (m.id = matchId)) with
    | none =>
      rw [hfind] at hx
      simp at hx
    | some m =>
      rw [hfind] at hx
      simp only [] at hx
      by_cases hpl : m.played = true
      · rw [if_pos hpl] at hx
        simp at hx
        exact hx ▸ le_refl _
      · rw [if_neg hpl] at hx
        by_cases hsh : m.registration1Id.isSome = m.registration2Id.isSome
        · rw [if_pos hsh] at hx
          simp at hx
          exact hx ▸ le_refl _
        · rw [if_neg hsh] at hx
          by_cases hpf : hasPendingFeederFn ms matchId eventId = true
          · rw [if_pos hpf] at hx
            simp at hx
            exact hx ▸ le_refl _
          · rw [if_neg hpf] at hx
            by_cases hadv : (optStrTruthy m.winnerTo && optNatTruthy m.winnerToSlot
                && optStrTruthy (jsOrStr m.registration1Id m.registration2Id)) = true
            · rw [if_pos hadv] at hx
              simp only [List.mem_cons] at hx
              rcases hx with rfl | hx
              · exact le_refl _
              · have hmmem : m ∈ ms := List.mem_of_find?_eq_some hfind
                have hmid : m.id = matchId := find?_some_id_matchRow hfind
                have hwtsome : m.winnerTo = some (m.winnerTo.getD "") := by
                  cases hw : m.winnerTo with
                  | none =>
                    rw [hw] at hadv
                    simp [optStrTruthy] at hadv
                  | some s => simp
                have hlt : rank (m.winnerTo.getD "") < rank matchId := by
                  rw [← hmid]
                  exact rankOkB_spec hok m hmmem _ hwtsome
                have hok2 : rankOkB rank (advanceWinnerToNextMatch
                    (ms.map (fun x : MatchRow =>
                      if x.id = matchId then
                        { x with winnerId := jsOrStr m.registration1Id m.registration2Id, played := true } else x))
                    (m.winnerTo.getD "") (m.winnerToSlot.getD 0)
                    ((jsOrStr m.registration1Id m.registration2Id).getD "")) = true := by
                  rw [rankOkB_cascadeStep]
                  exact hok
                have := ih _ _ _ hok2 x hx
                omega
            · rw [if_neg hadv] at hx
              simp at hx
              exact hx ▸ le_refl _

theorem cascade_trace_nodup (rank : String → Nat) :
    ∀ (fuel : Nat) (ms : List MatchRow) (matchId eventId : String),
      rankOkB rank ms = true →
      ((checkAndAutoAdvanceBye fuel ms matchId eventId).2).Nodup := by
  intro fuel
  induction fuel with
  | zero =>
    intro ms matchId eventId hok
    simp [checkAndAutoAdvanceBye]
  | succ fuel ih =>
    intro ms matchId eventId hok
    rw [cascade_succ_eq]
    cases hfind : ms.find? (fun m => decide (m.id = matchId)) with
    | none => simp
    | some m =>
      simp only []
      by_cases hpl : m.played = true
      · rw [if_pos hpl]
        simp
      · rw [if_neg hpl]
        by_cases hsh : m.registration1Id.isSome = m.registration2Id.isSome
        · rw [if_pos hsh]
          simp
        · rw [if_neg hsh]
          by_cases hpf : hasPendingFeederFn ms matchId eventId = true
          · rw [if_pos hpf]
            simp
          · rw [if_neg hpf]
            by_cases hadv : (optStrTruthy m.winnerTo && optNatTruthy m.winnerToSlot
                && optStrTruthy (jsOrStr m.registration1Id m.registration2Id)) = true
            · rw [if_pos hadv]
              have hmmem : m ∈ ms := List.mem_of_find?_eq_some hfind
              have hmid : m.id = matchId := find?_some_id_matchRow hfind
              have hwtsome : m.winnerTo = some (m.winnerTo.getD "") := by
                cases hw : m.winnerTo with
                | none =>
                  rw [hw] at hadv
                  simp [optStrTruthy] at hadv
                | some s => simp
              have hlt : rank (m.winnerTo.getD "") < rank matchId := by
                rw [← hmid]
                exact rankOkB_spec hok m hmmem _ hwtsome
              have hok2 : rankOkB rank (advanceWinnerToNextMatch
                  (ms.map (fun x : MatchRow =>
                    if x.id = matchId then
                      { x with winnerId := jsOrStr m.registration1Id m.registration2Id, played := true } else x))
                  (m.winnerTo.getD "") (m.winnerToSlot.getD 0)
                  ((jsOrStr m.registration1Id m.registration2Id).getD "")) = true := by
                rw [rankOkB_cascadeStep]
                exact hok
              refine List.nodup_cons.mpr ⟨?_, ih _ _ _ hok2⟩
              intro hmem
              have hle := cascade_trace_le rank fuel _ (m.winnerTo.getD "") eventId hok2
                matchId hmem
              omega
            · rw [if_neg hadv]
              simp

theorem cascade_trace_subset :
    ∀ (fuel : Nat) (ms : List MatchRow) (matchId eventId : String),
      ∀ x ∈ (checkAndAutoAdvanceBye fuel ms matchId eventId).2,
        x ∈ ms.map (fun y => y.id) := by
  intro fuel
  induction fuel with
  | zero =>
    intro ms matchId eventId x hx
    simp [checkAndAutoAdvanceBye] at hx
  | succ fuel ih =>
    intro ms matchId eventId x hx
    rw [cascade_succ_eq] at hx
    cases hfind : ms.find? (fun m => decide (m.id = matchId)) with
    | none =>
      rw [hfind] at hx
      simp at hx
    | some m =>
      rw [hfind] at hx
      simp only [] at hx
      have hmmem : m ∈ ms := List.mem_of_find?_eq_some hfind
      have hmid : m.id = matchId := find?_some_id_matchRow hfind
      have hmidmem : matchId ∈ ms.map (fun y => y.id) := by
        rw [← hmid]
        exact List.mem_map_of_mem _ hmmem
      by_cases hpl : m.played = true
      · rw [if_pos hpl] at hx
        simp at hx
        exact hx ▸ hmidmem
      · rw [if_neg hpl] at hx
        by_cases hsh : m.registration1Id.isSome = m.registration2Id.isSome
        · rw [if_pos hsh] at hx
          simp at hx
          exact hx ▸ hmidmem
        · rw [if_neg hsh] at hx
          by_cases hpf : hasPendingFeederFn ms matchId eventId = true
          · rw [if_pos hpf] at hx
            simp at hx
            exact hx ▸ hmidmem
          · rw [if_neg hpf] at hx
            by_cases hadv : (optStrTruthy m.winnerTo && optNatTruthy m.winnerToSlot
                && optStrTruthy (jsOrStr m.registration1Id m.registration2Id)) = true
            · rw [if_pos hadv] at hx
              simp only [List.mem_cons] at hx
              rcases hx with rfl | hx
              · exact hmidmem
              · have := ih _ _ _ x hx
                rw [ids_cascadeStep] at this
                exact this
            · rw [if_neg hadv] at hx
              simp at hx
              exact hx ▸ hmidmem

theorem cascade_fuel_succ (rank : String → Nat) :
    ∀ (fuel : Nat) (ms : List MatchRow) (matchId eventId : String),
      rankOkB rank ms = true → rank matchId < fuel →
      checkAndAutoAdvanceBye (fuel + 1) ms matchId eventId
        = checkAndAutoAdvanceBye fuel ms matchId eventId := by
  intro fuel
  induction fuel with
  | zero =>
    intro ms matchId eventId hok h
    omega
  | succ fuel ih =>
    intro ms matchId eventId hok hlt
    rw [cascade_succ_eq (fuel + 1) ms matchId eventId, cascade_succ_eq fuel ms matchId eventId]
    cases hfind : ms.find? (fun m => decide (m.id = matchId)) with
    | none => rfl
    | some m =>
      simp only []
      by_cases hpl : m.played = true
      · rw [if_pos hpl, if_pos hpl]
      · rw [if_neg hpl, if_neg hpl]
        by_cases hsh : m.registration1Id.isSome = m.registration2Id.isSome
        · rw [if_pos hsh, if_pos hsh]
        · rw [if_neg hsh, if_neg hsh]
          by_cases hpf : hasPendingFeederFn ms matchId eventId = true
          · rw [if_pos hpf, if_pos hpf]
          · rw [if_neg hpf, if_neg hpf]
            by_cases hadv : (optStrTruthy m.winnerTo && optNatTruthy m.winnerToSlot
                && optStrTruthy (jsOrStr m.registration1Id m.registration2Id)) = true
            · rw [if_pos hadv, if_pos hadv]
              have hmmem : m ∈ ms := List.mem_of_find?_eq_some hfind
              have hmid : m.id = matchId := find?_some_id_matchRow hfind
              have hwtsome : m.winnerTo = some (m.winnerTo.getD "") := by
                cases hw : m.winnerTo with
                | none =>
                  rw [hw] at hadv
                  simp [optStrTruthy] at hadv
                | some s => simp
              have hltwt : rank (m.winnerTo.getD "") < rank matchId := by
                rw [← hmid]
                exact rankOkB_spec hok m hmmem _ hwtsome
              have hok2 : rankOkB rank (advanceWinnerToNextMatch
                  (ms.map (fun x : MatchRow =>
                    if x.id = matchId then
                      { x with winnerId := jsOrStr m.registration1Id m.registration2Id, played := true } else x))
                  (m.winnerTo.getD "") (m.winnerToSlot.getD 0)
                  ((jsOrStr m.registration1Id m.registration2Id).getD "")) = true := by
                rw [rankOkB_cascadeStep]
                exact hok
              rw [ih _ (m.winnerTo.getD "") eventId hok2 (by omega)]
            · rw [if_neg hadv, if_neg hadv]

/-- Claim C5: under the forward-only DAG hypothesis, encoded as a rank
function strictly decreasing along every winnerTo edge, the BYE cascade
terminates: any fuel of at least rank + 1 yields the same result (the
recursion bottoms out), no match is visited twice within one cascade, and
with distinct match ids the number of recursive visits never exceeds the
number of matches of the event, so a chain of K BYE matches resolves in at
most K visits. -/
theorem checkAndAutoAdvanceBye_spec (ms : List MatchRow) (matchId eventId : String)
    (rank : String → Nat)
    (hok : rankOkB rank ms = true) :
    (∀ fuel, rank matchId + 1 ≤ fuel →
        checkAndAutoAdvanceBye fuel ms matchId eventId
          = checkAndAutoAdvanceBye (rank matchId + 1) ms matchId eventId)
    ∧ (∀ fuel, ((checkAndAutoAdvanceBye fuel ms matchId eventId).2).Nodup)
    ∧ (∀ fuel, ((checkAndAutoAdvanceBye fuel ms matchId eventId).2).length ≤ ms.length) := by
  refine ⟨?_, ?_, ?_⟩
  · intro fuel hge
    obtain ⟨k, rfl⟩ : ∃ k, fuel = rank matchId + 1 + k := ⟨fuel - (rank matchId + 1), by omega⟩
    clear hge
    induction k with
    | zero => rfl
    | succ k ihk =>
      have hstep : rank matchId + 1 + (k + 1) = (rank matchId + 1 + k) + 1 := by omega
      rw [hstep, cascade_fuel_succ rank (rank matchId + 1 + k) ms matchId eventId hok
        (by omega)]
      exact ihk
  · intro fuel
    exact cascade_trace_nodup rank fuel ms matchId eventId hok
  · intro fuel
    have hnd := cascade_trace_nodup rank fuel ms matchId eventId hok
    have hsub : ∀ x ∈ (checkAndAutoAdvanceBye fuel ms matchId eventId).2,
        x ∈ ms.map (fun y => y.id) := cascade_trace_subset fuel ms matchId eventId
    calc ((checkAndAutoAdvanceBye fuel ms matchId eventId).2).length
        = ((checkAndAutoAdvanceBye fuel ms matchId eventId).2).toFinset.card :=
          (List.toFinset_card_of_nodup hnd).symm
      _ ≤ (ms.map (fun y => y.id)).toFinset.card := by
          apply Finset.card_le_card
          intro a ha
          rw [List.mem_toFinset] at ha ⊢
          exact hsub a ha
      _ ≤ (ms.map (fun y => y.id)).length := List.toFinset_card_le _
      _ = ms.length := List.length_map _ _

/-- Witness for claim C5: the two-match BYE chain msBye under the rank
function rankBye resolves identically for every sufficient fuel, visits
each match at most once, and makes at most two visits. -/
theorem checkAndAutoAdvanceBye_spec_witness :
    (checkAndAutoAdvanceBye 5 msBye "b1" "e1"
      = checkAndAutoAdvanceBye (rankBye "b1" + 1) msBye "b1" "e1")
    ∧ ((checkAndAutoAdvanceBye 5 msBye "b1" "e1").2).Nodup
    ∧ ((checkAndAutoAdvanceBye 5 msBye "b1" "e1").2).length ≤ msBye.length := by
  have h := checkAndAutoAdvanceBye_spec msBye "b1" "e1" rankBye (by decide)
  exact ⟨h.1 5 (by decide), h.2.1 5, h.2.2 5⟩

end Speedball
